import Mathlib

/-!
Verification development for the "Crystal Hunters: Duo Chronicles" simulation
engine (a two-player cooperative arena shooter).

The embedding below is a shallow translation of the game-logic component
(`GameCanvas`): its procedural environment oracle, spatial region query,
weapon system, physics/collision resolver, enemy AI, progression state
machine and tick loop, together with the surrounding application state
machine that stops the loop on a terminal session event.

Modelling conventions:
* World coordinates and all numeric entity fields are real numbers; the
  JavaScript float operations are read as their exact real counterparts.
* The ambient `Math` library is a parameter (`MathImpl`): `Math.sin`,
  `Math.cos` and `Math.atan2` are unknown-but-fixed real functions, and
  `Math.random()` is an arbitrary pre-drawn stream `randF : ℕ → ℝ` consumed
  left to right (the game state carries the next index).  Theorems that
  need a genuine trigonometric fact take it as an explicit hypothesis and
  their witnesses discharge it with `Real.sin` / `Real.cos` / `Complex.arg`.
* `Math.hypot x y` is `Real.sqrt (x*x + y*y)` (its exact specification).
* `Math.random().toString()` ids are modelled as `"0." ++ toString i` where
  `i` is the position in the random stream: fresh per draw and never
  starting with `"p"`, which is all the engine observes about them
  (the `ownerId.startsWith("p")` faction test).
* Colors are either string literals or an `hsl` record, mirroring the two
  forms the source constructs.
-/

noncomputable section

namespace CrystalHunters

/-- Math.hypot: the exact Euclidean norm of a 2-vector. -/
def hypot (x y : ℝ) : ℝ := Real.sqrt (x * x + y * y)

/-- 2D vector (`Vector2` in types.ts). -/
structure Vec2 where
  x : ℝ
  y : ℝ

/-- The ambient JavaScript Math library, as unknown-but-fixed functions,
plus the pre-drawn `Math.random()` stream. `atan2F y x` models
`Math.atan2(y, x)`. -/
structure MathImpl where
  sinF : ℝ → ℝ
  cosF : ℝ → ℝ
  atan2F : ℝ → ℝ → ℝ
  randF : ℕ → ℝ

/-- One `Math.random()` draw: value at the current stream index, next index. -/
def MathImpl.rnd (M : MathImpl) (i : ℕ) : ℝ × ℕ := (M.randF i, i + 1)

/-- A `Math.random().toString()` id: fresh per draw, never starts with "p". -/
def randId (i : ℕ) : String × ℕ := ("0." ++ toString i, i + 1)

/-- LevelInfo record (types.ts); only `levelNumber` feeds the engine. -/
structure LevelInfo where
  levelNumber : ℝ
  biomeName : String
  description : String
  bossName : String
  bossDescription : String

/-- Static configuration of one session: the Math library model, the
optional `levelInfo` prop, and the window dimensions read by the bullet
environment query. -/
structure Config where
  math : MathImpl
  levelInfo : Option LevelInfo
  innerW : ℝ
  innerH : ℝ

/-- `levelInfo?.levelNumber || 1`: JS optional chaining plus `||` falsiness
(the number 0 is falsy). -/
def levelNum (cfg : Config) : ℝ :=
  match cfg.levelInfo with
  | none => 1
  | some li => if li.levelNumber = 0 then 1 else li.levelNumber

/-- `CRYSTALS_TO_BOSS = 10 + (levelInfo?.levelNumber || 1) * 2`. -/
def CRYSTALS_TO_BOSS (cfg : Config) : ℝ := 10 + levelNum cfg * 2

def FRICTION : ℝ := 0.88

def ACCELERATION : ℝ := 0.6

def MAX_SPEED : ℝ := 6

def GRID_CELL_SIZE : ℝ := 200

/-- Player role; determines the control-key binding. -/
inductive Role
  | boy
  | girl
deriving DecidableEq

/-- WeaponType in types.ts. -/
inductive Weapon
  | sniper
  | ak47
  | shotgun
  | minigun
  | laser
deriving DecidableEq

/-- `WeaponType | 'enemy_normal'`: the bullet's kind discriminant. -/
inductive BulletKind
  | sniper
  | ak47
  | shotgun
  | minigun
  | laser
  | enemyNormal
deriving DecidableEq

/-- Inclusion of weapon kinds into bullet kinds. -/
def Weapon.kind : Weapon → BulletKind
  | .sniper => .sniper
  | .ak47 => .ak47
  | .shotgun => .shotgun
  | .minigun => .minigun
  | .laser => .laser

/-- The `type` discriminant an enemy record carries (`'enemy' | 'boss'`). -/
inductive EntityType
  | enemy
  | boss
deriving DecidableEq

/-- `enemyType`: walker, shooter or boss. -/
inductive EnemyKind
  | walker
  | shooter
  | boss
deriving DecidableEq

/-- Particle visual kind. -/
inductive ParticleKind
  | blood
  | spark
  | smoke
deriving DecidableEq

/-- Obstacle kind of an environment object. -/
inductive EnvKind
  | tree
  | building
deriving DecidableEq

/-- A CSS color: either a string literal or an `hsl(h, s%, l%)` value. -/
inductive ColorT
  | lit (s : String)
  | hsl (h s l : ℝ)

/-- Player record (types.ts `Player`). -/
structure PlayerS where
  id : String
  role : Role
  weapon : Weapon
  pos : Vec2
  vel : Vec2
  radius : ℝ
  color : ColorT
  hp : ℝ
  maxHp : ℝ
  dead : Bool
  rotation : ℝ
  animFrame : ℝ
  cooldown : ℝ
  maxCooldown : ℝ
  dashCooldown : ℝ
  score : ℝ
  isInvulnerable : Bool

/-- Enemy visual-variation record. -/
structure Visuals where
  hue : ℝ
  scale : ℝ
  hasArmor : Bool
  hasHorns : Bool
  hasEye : Bool

/-- Enemy record (types.ts `Enemy`). -/
structure EnemyS where
  id : String
  etype : EntityType
  enemyType : EnemyKind
  pos : Vec2
  vel : Vec2
  radius : ℝ
  color : ColorT
  rotation : ℝ
  animFrame : ℝ
  hp : ℝ
  maxHp : ℝ
  dead : Bool
  targetId : Option String
  attackCooldown : ℝ
  visuals : Visuals

/-- Bullet record (types.ts `Bullet`). -/
structure Bullet where
  id : String
  pos : Vec2
  vel : Vec2
  radius : ℝ
  color : ColorT
  ownerId : String
  damage : ℝ
  lifeTime : ℤ
  isReflected : Bool
  bulletType : BulletKind

/-- Particle record (types.ts `Particle`). -/
structure Particle where
  id : String
  pos : Vec2
  vel : Vec2
  life : ℝ
  maxLife : ℝ
  color : ColorT
  size : ℝ
  ptype : ParticleKind

/-- Crystal entity (an `Entity` with type 'crystal'). -/
structure Crystal where
  id : String
  pos : Vec2
  vel : Vec2
  radius : ℝ
  color : ColorT
  rotation : ℝ
  hp : ℝ
  maxHp : ℝ
  dead : Bool
  animFrame : ℝ

/-- Crate record (types.ts `Crate`). -/
structure Crate where
  id : String
  pos : Vec2
  vel : Vec2
  radius : ℝ
  color : ColorT
  rotation : ℝ
  hp : ℝ
  maxHp : ℝ
  dead : Bool

/-- Pickup record (types.ts `Pickup`). -/
structure Pickup where
  id : String
  pos : Vec2
  vel : Vec2
  radius : ℝ
  color : ColorT
  rotation : ℝ
  hp : ℝ
  maxHp : ℝ
  dead : Bool
  weaponType : Weapon
  lifeTime : ℤ

/-- Environment object (types.ts `EnvironmentObject`). -/
structure EnvObj where
  id : String
  kind : EnvKind
  pos : Vec2
  size : Vec2
  color : ColorT

/-- The mutable refs of `GameCanvas` that the tick loop owns: the entity
registries, the camera, the wave timer, the boss flag, the collected-crystal
count, and the position in the random stream. -/
structure GState where
  players : List PlayerS
  enemies : List EnemyS
  bullets : List Bullet
  particles : List Particle
  crystals : List Crystal
  crates : List Crate
  pickups : List Pickup
  camera : Vec2
  waveTimer : ℕ
  bossSpawned : Bool
  crystalsCollected : ℕ
  randIdx : ℕ

/-! ## Procedural environment oracle (`getEnvironmentAt`, source lines 235-263) -/

/-- The sine-based hash seed: `Math.sin(gx * 12.9898 + gy * 78.233) * 43758.5453`. -/
def envSeed (M : MathImpl) (gx gy : ℤ) : ℝ :=
  M.sinF ((gx : ℝ) * 12.9898 + (gy : ℝ) * 78.233) * 43758.5453

/-- The hash value: `Math.abs(seed - Math.floor(seed))`. -/
def envVal (M : MathImpl) (gx gy : ℤ) : ℝ :=
  |envSeed M gx gy - (⌊envSeed M gx gy⌋ : ℝ)|

/-- `getEnvironmentAt(gx, gy)`: the pure oracle from an integer grid cell to
an optional static obstacle. -/
def getEnvironmentAt (M : MathImpl) (gx gy : ℤ) : Option EnvObj :=
  let seed := envSeed M gx gy
  let val := envVal M gx gy
  let cx := (gx : ℝ) * GRID_CELL_SIZE + GRID_CELL_SIZE / 2
  let cy := (gy : ℝ) * GRID_CELL_SIZE + GRID_CELL_SIZE / 2
  let jitterX := M.cosF (seed * 11) * GRID_CELL_SIZE * 0.4
  let jitterY := M.sinF (seed * 22) * GRID_CELL_SIZE * 0.4
  let pos : Vec2 := ⟨cx + jitterX, cy + jitterY⟩
  if |gx| < 2 ∧ |gy| < 2 then none
  else if val > 0.85 then
    let isWide := val > 0.95
    some { id := "b-" ++ toString gx ++ "-" ++ toString gy
           kind := .building
           pos := pos
           size := ⟨if isWide then 180 else 120, 100 + val * 50⟩
           color := if val > 0.92 then .lit ("#1f2937") else .lit ("#374151") }
  else if val > 0.3 then
    some { id := "t-" ++ toString gx ++ "-" ++ toString gy
           kind := .tree
           pos := pos
           size := ⟨40 + val * 40, 0⟩
           color := if val > 0.6 then .lit ("#166534") else .lit ("#15803d") }
  else none

/-- Integer cells `lo, lo+1, …, hi` (empty when `hi < lo`), the range a JS
`for (g = lo; g <= hi; g++)` loop visits. -/
def cellRange (lo hi : ℤ) : List ℤ :=
  (List.range (hi - lo + 1).toNat).map (fun (k : ℕ) => lo + (k : ℤ))

/-- `getEnvironmentInRect(x, y, w, h)`: enumerate the halo-expanded
inclusive grid-cell range covering the rectangle and collect the non-none
oracle results (source lines 265-279). -/
def getEnvironmentInRect (M : MathImpl) (x y w h : ℝ) : List EnvObj :=
  let startX := ⌊(x - w / 2) / GRID_CELL_SIZE⌋
  let endX := ⌊(x + w / 2) / GRID_CELL_SIZE⌋
  let startY := ⌊(y - h / 2) / GRID_CELL_SIZE⌋
  let endY := ⌊(y + h / 2) / GRID_CELL_SIZE⌋
  (cellRange (startX - 1) (endX + 1)).flatMap fun gx =>
    (cellRange (startY - 1) (endY + 1)).filterMap fun gy =>
      getEnvironmentAt M gx gy

/-! ## Spawners (source lines 281-404) -/

/-- Default bullet stats and the per-kind overrides of `spawnBullet`'s
`switch` (source lines 282-301): damage, radius, lifeTime, color. -/
def bulletStats : BulletKind → ℝ × ℝ × ℤ × ColorT
  | .sniper => (150, 5, 100, .lit ("#60a5fa"))
  | .shotgun => (12, 3, 30, .lit ("#f97316"))
  | .minigun => (8, 3, 60, .lit ("#fbbf24"))
  | .laser => (25, 4, 80, .lit ("#4ade80"))
  | .ak47 => (20, 4, 80, .lit ("#fcd34d"))
  | .enemyNormal => (10, 6, 100, .lit ("#ef4444"))

/-- One particle of `spawnParticle`'s loop body (source lines 315-327); the
five `Math.random()` draws happen in source order: speed, angle, id, life,
size. -/
def mkParticle (M : MathImpl) (pos : Vec2) (color : ColorT)
    (ptype : ParticleKind) (i : ℕ) : Particle × ℕ :=
  let (r1, i) := M.rnd i
  let speed := r1 * 4 + 1
  let (r2, i) := M.rnd i
  let angle := r2 * Real.pi * 2
  let (pid, i) := randId i
  let (r4, i) := M.rnd i
  let (r5, i) := M.rnd i
  ({ id := pid
     pos := pos
     vel := ⟨M.cosF angle * speed, M.sinF angle * speed⟩
     life := 20 + r4 * 20
     maxLife := 40
     color := color
     size := r5 * 4 + 2
     ptype := ptype }, i)

/-- `spawnParticle(pos, color, count, type)`: emit `count` particles
(source lines 314-329). -/
def spawnParticle (M : MathImpl) (pos : Vec2) (color : ColorT)
    (count : ℕ) (ptype : ParticleKind) (i : ℕ) : List Particle × ℕ :=
  match count with
  | 0 => ([], i)
  | n + 1 =>
    let (p, i) := mkParticle M pos color ptype i
    let (ps, i) := spawnParticle M pos color n ptype i
    (p :: ps, i)

/-- `spawnBullet(pos, vel, ownerId, bulletType)` (source lines 281-312):
returns the pushed bullet, the muzzle spark particles (absent for
`enemy_normal`), and the advanced random index. -/
def spawnBullet (M : MathImpl) (pos vel : Vec2) (ownerId : String)
    (bulletType : BulletKind) (i : ℕ) : Bullet × List Particle × ℕ :=
  -- The owner-based default stats (damage 15, radius 4, lifeTime 120, color
  -- by faction) are overridden in every arm of the source's `switch`, so
  -- `bulletStats` tabulates the final values per kind directly.
  let (damage, radius, lifeTime, color) := bulletStats bulletType
  let (bid, i) := randId i
  let b : Bullet :=
    { id := bid
      pos := pos
      vel := vel
      radius := radius
      color := color
      ownerId := ownerId
      damage := damage
      lifeTime := lifeTime
      isReflected := false
      bulletType := bulletType }
  if bulletType = .enemyNormal then (b, [], i)
  else
    let (parts, i) := spawnParticle M pos color 3 .spark i
    (b, parts, i)

/-- `getCameraCenter()` (source lines 406-411): the centroid of the living
players, or the origin when none is alive. -/
def getCameraCenter (players : List PlayerS) : Vec2 :=
  let alivePlayers := players.filter (fun p => !p.dead)
  if alivePlayers.isEmpty then ⟨0, 0⟩
  else
    let sum := alivePlayers.foldl
      (fun (acc : Vec2) p => ⟨acc.x + p.pos.x, acc.y + p.pos.y⟩) ⟨0, 0⟩
    ⟨sum.x / (alivePlayers.length : ℝ), sum.y / (alivePlayers.length : ℝ)⟩

/-- All five weapon kinds, in the order of `spawnPickup`'s `weapons` array. -/
def pickupWeapons : List Weapon := [.shotgun, .minigun, .laser, .sniper, .ak47]

/-- `spawnPickup(pos)` (source lines 394-404): a weapon pickup at `pos`
with a random weapon. For `r ∈ [0,1)` (the range of `Math.random`) the index
`⌊r * 5⌋` lies in `[0,4]` and the `getD` fallback is never taken. -/
def spawnPickup (M : MathImpl) (pos : Vec2) (i : ℕ) : Pickup × ℕ :=
  let (r, i) := M.rnd i
  let randomWeapon := pickupWeapons.getD (⌊r * (pickupWeapons.length : ℝ)⌋).toNat .shotgun
  let (pid, i) := randId i
  ({ id := pid
     pos := pos
     vel := ⟨0, 0⟩
     radius := 15
     color := .lit ("#fff")
     rotation := 0
     hp := 1
     maxHp := 1
     dead := false
     weaponType := randomWeapon
     lifeTime := 1800 }, i)

/-! ## Physics and collision resolver (`checkEnvironmentCollision`,
source lines 413-445) -/

/-- The nearest point of a building rectangle to `pos`: clamp each
coordinate to the rectangle (source lines 431-432). -/
def clampToRect (env : EnvObj) (pos : Vec2) : Vec2 :=
  let halfW := env.size.x / 2
  let halfH := env.size.y / 2
  ⟨max (env.pos.x - halfW) (min pos.x (env.pos.x + halfW)),
   max (env.pos.y - halfH) (min pos.y (env.pos.y + halfH))⟩

/-- Is `pos` within the (closed) footprint rectangle of a building? -/
def inRect (env : EnvObj) (pos : Vec2) : Prop :=
  env.pos.x - env.size.x / 2 ≤ pos.x ∧ pos.x ≤ env.pos.x + env.size.x / 2 ∧
  env.pos.y - env.size.y / 2 ≤ pos.y ∧ pos.y ≤ env.pos.y + env.size.y / 2

/-- Resolution of one obstacle against a moving body (the loop body of
`checkEnvironmentCollision`, source lines 415-443): returns the updated
position and velocity. -/
def resolveObstacle (M : MathImpl) (env : EnvObj) (pos vel : Vec2)
    (radius : ℝ) : Vec2 × Vec2 :=
  match env.kind with
  | .tree =>
    let dx := pos.x - env.pos.x
    let dy := pos.y - env.pos.y
    let dist := hypot dx dy
    let minDist := env.size.x + radius
    if dist < minDist then
      let angle := M.atan2F dy dx
      let push := minDist - dist
      (⟨pos.x + M.cosF angle * push, pos.y + M.sinF angle * push⟩,
       ⟨vel.x * 0.8, vel.y * 0.8⟩)
    else (pos, vel)
  | .building =>
    let c := clampToRect env pos
    let dx := pos.x - c.x
    let dy := pos.y - c.y
    let dist := hypot dx dy
    if dist < radius then
      let angle := M.atan2F dy dx
      let push := radius - dist
      (⟨pos.x + M.cosF angle * push, pos.y + M.sinF angle * push⟩,
       ⟨vel.x * 0.5, vel.y * 0.5⟩)
    else (pos, vel)

/-- `checkEnvironmentCollision(entity)`: query the 300×300 window around
the entity once, then resolve each obstacle in order against the mutated
position (source lines 413-445). -/
def checkEnvironmentCollision (M : MathImpl) (pos vel : Vec2)
    (radius : ℝ) : Vec2 × Vec2 :=
  let nearby := getEnvironmentInRect M pos.x pos.y 300 300
  nearby.foldl (fun (acc : Vec2 × Vec2) env =>
    resolveObstacle M env acc.1 acc.2 radius) (pos, vel)

/-! ## Weapon system (`fireWeapon`, source lines 448-494) -/

/-- `fireWeapon(p)`: translate the equipped weapon into spawned
projectiles, recoil, and the cooldown reset `p.cooldown = p.maxCooldown`.
Returns the mutated player, the spawned bullets and particles, and the
advanced random index. -/
def fireWeapon (M : MathImpl) (i : ℕ) (p : PlayerS) :
    PlayerS × List Bullet × List Particle × ℕ :=
  let muzzleDist : ℝ := 35
  let muzzlePos : Vec2 :=
    ⟨p.pos.x + M.cosF p.rotation * muzzleDist,
     p.pos.y + M.sinF p.rotation * muzzleDist⟩
  match p.weapon with
  | .sniper =>
    let vel : Vec2 := ⟨M.cosF p.rotation * 35, M.sinF p.rotation * 35⟩
    let (b, parts, i) := spawnBullet M muzzlePos vel p.id .sniper i
    let p := { p with maxCooldown := 90,
                      vel := ⟨p.vel.x - M.cosF p.rotation * 8,
                              p.vel.y - M.sinF p.rotation * 8⟩ }
    ({ p with cooldown := p.maxCooldown }, [b], parts, i)
  | .shotgun =>
    let pellet := fun (k : ℤ) (i : ℕ) =>
      let spread := (k : ℝ) * 0.15
      let vel : Vec2 := ⟨M.cosF (p.rotation + spread) * 12,
                         M.sinF (p.rotation + spread) * 12⟩
      spawnBullet M muzzlePos vel p.id .shotgun i
    let (b1, ps1, i) := pellet (-2) i
    let (b2, ps2, i) := pellet (-1) i
    let (b3, ps3, i) := pellet 0 i
    let (b4, ps4, i) := pellet 1 i
    let (b5, ps5, i) := pellet 2 i
    let p := { p with maxCooldown := 60,
                      vel := ⟨p.vel.x - M.cosF p.rotation * 6,
                              p.vel.y - M.sinF p.rotation * 6⟩ }
    ({ p with cooldown := p.maxCooldown },
     [b1, b2, b3, b4, b5], ps1 ++ ps2 ++ ps3 ++ ps4 ++ ps5, i)
  | .minigun =>
    let (r, i) := M.rnd i
    let spread := (r - 0.5) * 0.4
    let vel : Vec2 := ⟨M.cosF (p.rotation + spread) * 18,
                       M.sinF (p.rotation + spread) * 18⟩
    let (b, parts, i) := spawnBullet M muzzlePos vel p.id .minigun i
    let p := { p with maxCooldown := 4,
                      vel := ⟨p.vel.x - M.cosF p.rotation * 0.5,
                              p.vel.y - M.sinF p.rotation * 0.5⟩ }
    ({ p with cooldown := p.maxCooldown }, [b], parts, i)
  | .laser =>
    let vel : Vec2 := ⟨M.cosF p.rotation * 25, M.sinF p.rotation * 25⟩
    let (b, parts, i) := spawnBullet M muzzlePos vel p.id .laser i
    let p := { p with maxCooldown := 25 }
    ({ p with cooldown := p.maxCooldown }, [b], parts, i)
  | .ak47 =>
    let (r, i) := M.rnd i
    let spread := (r - 0.5) * 0.1
    let vel : Vec2 := ⟨M.cosF (p.rotation + spread) * 16,
                       M.sinF (p.rotation + spread) * 16⟩
    let (b, parts, i) := spawnBullet M muzzlePos vel p.id .ak47 i
    let p := { p with maxCooldown := 10,
                      vel := ⟨p.vel.x - M.cosF p.rotation * 1,
                              p.vel.y - M.sinF p.rotation * 1⟩ }
    ({ p with cooldown := p.maxCooldown }, [b], parts, i)

/-! ## Enemy / crystal / crate spawners and the spawn policy
(source lines 331-392 and 510-520) -/

/-- `spawnEnemy(isBoss)` (source lines 331-368): append one enemy (or the
boss) at a random point 800-1000 units from the player centroid. -/
def spawnEnemy (cfg : Config) (isBoss : Bool) (s : GState) : GState :=
  let M := cfg.math
  let (r1, i) := M.rnd s.randIdx
  let angle := r1 * Real.pi * 2
  let (r2, i) := M.rnd i
  let distance := 800 + r2 * 200
  let center := getCameraCenter s.players
  let spawnPos : Vec2 :=
    ⟨center.x + M.cosF angle * distance, center.y + M.sinF angle * distance⟩
  let (r3, i) := M.rnd i
  let (r4, i) := M.rnd i
  let (r5, i) := M.rnd i
  let (r6, i) := M.rnd i
  let (r7, i) := M.rnd i
  let visuals : Visuals :=
    { hue := r3 * 360
      scale := 0.8 + r4 * 0.5
      hasArmor := decide (r5 > 0.7)
      hasHorns := decide (r6 > 0.5)
      hasEye := decide (r7 > 0.5) }
  if isBoss then
    { s with
      enemies := s.enemies ++
        [{ id := "boss"
           etype := .boss
           enemyType := .boss
           pos := spawnPos
           vel := ⟨0, 0⟩
           radius := 80
           color := .lit ("#991b1b")
           rotation := 0
           animFrame := 0
           hp := 1500 * levelNum cfg
           maxHp := 1500 * levelNum cfg
           dead := false
           targetId := none
           attackCooldown := 0
           visuals := { visuals with scale := 2.0, hasArmor := true, hasHorns := true } }]
      randIdx := i }
  else
    let (r8, i) := M.rnd i
    let etype := if r8 > 0.6 then EnemyKind.shooter else EnemyKind.walker
    let hp0 := (50 + levelNum cfg * 10) * visuals.scale
    let hp := if visuals.hasArmor then hp0 * 1.5 else hp0
    let (eid, i) := randId i
    { s with
      enemies := s.enemies ++
        [{ id := eid
           etype := .enemy
           enemyType := etype
           pos := spawnPos
           vel := ⟨0, 0⟩
           radius := (if etype = EnemyKind.shooter then 25 else 30) * visuals.scale
           color := if etype = EnemyKind.shooter then .hsl visuals.hue 70 45
                     else .hsl visuals.hue 60 40
           rotation := 0
           animFrame := 0
           hp := hp
           maxHp := hp
           dead := false
           targetId := none
           attackCooldown := 0
           visuals := visuals }]
      randIdx := i }

/-- `spawnCrystal()` (source lines 370-380). -/
def spawnCrystal (cfg : Config) (s : GState) : GState :=
  let M := cfg.math
  let (r1, i) := M.rnd s.randIdx
  let angle := r1 * Real.pi * 2
  let (r2, i) := M.rnd i
  let distance := 400 + r2 * 1600
  let center := getCameraCenter s.players
  let (cid, i) := randId i
  let (r4, i) := M.rnd i
  { s with
    crystals := s.crystals ++
      [{ id := cid
         pos := ⟨center.x + M.cosF angle * distance, center.y + M.sinF angle * distance⟩
         vel := ⟨0, 0⟩
         radius := 15
         color := .lit ("#d8b4fe")
         rotation := r4 * Real.pi
         hp := 1
         maxHp := 1
         dead := false
         animFrame := 0 }]
    randIdx := i }

/-- `spawnCrate()` (source lines 382-392). -/
def spawnCrate (cfg : Config) (s : GState) : GState :=
  let M := cfg.math
  let (r1, i) := M.rnd s.randIdx
  let angle := r1 * Real.pi * 2
  let (r2, i) := M.rnd i
  let distance := 300 + r2 * 1000
  let center := getCameraCenter s.players
  let (cid, i) := randId i
  { s with
    crates := s.crates ++
      [{ id := cid
         pos := ⟨center.x + M.cosF angle * distance, center.y + M.sinF angle * distance⟩
         vel := ⟨0, 0⟩
         radius := 25
         color := .lit ("#f97316")
         rotation := 0
         hp := 30
         maxHp := 30
         dead := false }]
    randIdx := i }

/-- The periodic regular spawns (source lines 512-514): an enemy every 120
ticks below 30 alive, a crystal every 60 ticks below 15, a crate every 300
ticks below 5. -/
def regularSpawns (cfg : Config) (s : GState) : GState :=
  let s := if s.waveTimer % 120 = 0 ∧ s.enemies.length < 30 then spawnEnemy cfg false s else s
  let s := if s.crystals.length < 15 ∧ s.waveTimer % 60 = 0 then spawnCrystal cfg s else s
  let s := if s.crates.length < 5 ∧ s.waveTimer % 300 = 0 then spawnCrate cfg s else s
  s

/-- The wave/boss spawn policy at the head of `update` (source lines
510-520): increment the wave timer; while no boss has spawned, run the
periodic regular spawns and, once the collected-crystal count has reached
`CRYSTALS_TO_BOSS`, spawn the single boss and latch `bossSpawned`. -/
def spawnPhase (cfg : Config) (s : GState) : GState :=
  let s := { s with waveTimer := s.waveTimer + 1 }
  if s.bossSpawned then s
  else
    let s := regularSpawns cfg s
    if (s.crystalsCollected : ℝ) ≥ CRYSTALS_TO_BOSS cfg then
      { (spawnEnemy cfg true s) with bossSpawned := true }
    else s

/-! ## Player update (source lines 522-576) -/

/-- Movement force accumulated from the held keys by role (source lines
526-540). -/
def moveForce (keys : String → Bool) (p : PlayerS) : Vec2 :=
  let f : Vec2 := ⟨0, 0⟩
  match p.role with
  | .boy =>
    let f := if keys ("KeyW") then { f with y := f.y - ACCELERATION } else f
    let f := if keys ("KeyS") then { f with y := f.y + ACCELERATION } else f
    let f := if keys ("KeyA") then { f with x := f.x - ACCELERATION } else f
    let f := if keys ("KeyD") then { f with x := f.x + ACCELERATION } else f
    f
  | .girl =>
    let f := if keys ("ArrowUp") then { f with y := f.y - ACCELERATION } else f
    let f := if keys ("ArrowDown") then { f with y := f.y + ACCELERATION } else f
    let f := if keys ("ArrowLeft") then { f with x := f.x - ACCELERATION } else f
    let f := if keys ("ArrowRight") then { f with x := f.x + ACCELERATION } else f
    f

/-- The nearest-enemy scan shared by auto-aim (source lines 543-548,
threshold 1200) and sniper homing (source lines 689-694, threshold 800):
fold over the enemy registry keeping the current target and its distance;
an enemy strictly closer than the current threshold replaces it. -/
def scanEnemies (pos : Vec2) : List EnemyS → Option EnemyS × ℝ → Option EnemyS × ℝ
  | [], acc => acc
  | e :: rest, (t, m) =>
    let d := hypot (e.pos.x - pos.x) (e.pos.y - pos.y)
    if d < m then scanEnemies pos rest (some e, d) else scanEnemies pos rest (t, m)

/-- The target the auto-aim scan settles on (if any enemy is strictly
within 1200 units). -/
def aimTarget (enemies : List EnemyS) (p : PlayerS) : Option EnemyS :=
  (scanEnemies p.pos enemies (none, 1200)).1

/-- The facing rotation after auto-aim (source lines 550-554): toward the
scan's target if one exists, else along a nonzero movement force, else
unchanged. -/
def aimRotation (M : MathImpl) (enemies : List EnemyS) (p : PlayerS)
    (force : Vec2) : ℝ :=
  match aimTarget enemies p with
  | some t => M.atan2F (t.pos.y - p.pos.y) (t.pos.x - p.pos.x)
  | none =>
    if |force.x| > 0 ∨ |force.y| > 0 then M.atan2F force.y force.x
    else p.rotation

/-- The fire key for a player's role (source line 557). -/
def fireKey (p : PlayerS) : String :=
  match p.role with
  | .boy => "Space"
  | .girl => "Enter"

/-- The shooting gate (source lines 558-560): fire only when the fire key
is held and the current cooldown is ≤ 0. -/
def shootStep (M : MathImpl) (keys : String → Bool) (i : ℕ) (p : PlayerS) :
    PlayerS × List Bullet × List Particle × ℕ :=
  if keys (fireKey p) = true ∧ p.cooldown ≤ 0 then fireWeapon M i p
  else (p, [], [], i)

/-- One player's whole per-tick update (the `forEach` body, source lines
523-576): controls, auto-aim, gated fire, physics with friction and speed
cap, obstacle collision, animation phase, cooldown decrement. -/
def stepPlayer (M : MathImpl) (keys : String → Bool) (enemies : List EnemyS)
    (i : ℕ) (p : PlayerS) : PlayerS × List Bullet × List Particle × ℕ :=
  if p.dead then (p, [], [], i)
  else
    let force := moveForce keys p
    let p := { p with rotation := aimRotation M enemies p force }
    let (p, bs, parts, i) := shootStep M keys i p
    let vel : Vec2 := ⟨(p.vel.x + force.x) * FRICTION, (p.vel.y + force.y) * FRICTION⟩
    let currSpeed := hypot vel.x vel.y
    let vel := if currSpeed > MAX_SPEED then
        ⟨vel.x / currSpeed * MAX_SPEED, vel.y / currSpeed * MAX_SPEED⟩
      else vel
    let pos : Vec2 := ⟨p.pos.x + vel.x, p.pos.y + vel.y⟩
    let (pos, vel) := checkEnvironmentCollision M pos vel p.radius
    ({ p with
        pos := pos
        vel := vel
        animFrame := p.animFrame + currSpeed * 0.15
        cooldown := if p.cooldown > 0 then p.cooldown - 1 else p.cooldown },
     bs, parts, i)

/-- The player-update phase: each player in registry order, bullets and
particles appended in spawn order, the random index threaded through. -/
def playerPhase (M : MathImpl) (keys : String → Bool) (s : GState) : GState :=
  let acc := s.players.foldl
    (fun (acc : List PlayerS × List Bullet × List Particle × ℕ) p =>
      let (ps, bs, parts, i) := acc
      let (p', bs', parts', i') := stepPlayer M keys s.enemies i p
      (ps ++ [p'], bs ++ bs', parts ++ parts', i'))
    ([], [], [], s.randIdx)
  { s with
    players := acc.1
    bullets := s.bullets ++ acc.2.1
    particles := s.particles ++ acc.2.2.1
    randIdx := acc.2.2.2 }

/-! ## Crate / pickup interaction (source lines 578-602) -/

/-- One player's pass over the crate registry (source lines 581-588): every
live crate within touch range dies, bursts into particles, and spawns one
weapon pickup at its location; dead crates are skipped. -/
def touchCrates (M : MathImpl) (p : PlayerS) (i : ℕ) :
    List Crate → List Crate × List Particle × List Pickup × ℕ
  | [] => ([], [], [], i)
  | c :: rest =>
    if c.dead then
      let (rest', parts, picks, i') := touchCrates M p i rest
      (c :: rest', parts, picks, i')
    else if hypot (c.pos.x - p.pos.x) (c.pos.y - p.pos.y) < p.radius + c.radius then
      let (parts1, i) := spawnParticle M c.pos (.lit ("#f97316")) 10 .spark i
      let (pk, i) := spawnPickup M c.pos i
      let (rest', parts, picks, i') := touchCrates M p i rest
      ({ c with dead := true } :: rest', parts1 ++ parts, pk :: picks, i')
    else
      let (rest', parts, picks, i') := touchCrates M p i rest
      (c :: rest', parts, picks, i')

/-- One player's pass over the pickup registry (source lines 591-599):
every live pickup within touch range dies and overwrites the player's
equipped weapon. -/
def touchPickups (M : MathImpl) (i : ℕ) (p : PlayerS) :
    List Pickup → PlayerS × List Pickup × List Particle × ℕ
  | [] => (p, [], [], i)
  | pk :: rest =>
    if pk.dead then
      let (p', rest', parts, i') := touchPickups M i p rest
      (p', pk :: rest', parts, i')
    else if hypot (pk.pos.x - p.pos.x) (pk.pos.y - p.pos.y) < p.radius + pk.radius then
      let p := { p with weapon := pk.weaponType }
      let (parts1, i) := spawnParticle M p.pos (.lit ("#fff")) 10 .spark i
      let (p', rest', parts, i') := touchPickups M i p rest
      (p', { pk with dead := true } :: rest', parts1 ++ parts, i')
    else
      let (p', rest', parts, i') := touchPickups M i p rest
      (p', pk :: rest', parts, i')

/-- The interaction phase (source lines 578-602): each living player opens
touched crates (spawning pickups) and then collects touched pickups —
including ones spawned moments earlier in the same pass; afterwards dead
crates and consumed pickups are purged. -/
def interactPhase (M : MathImpl) (s : GState) : GState :=
  let acc := s.players.foldl
    (fun (acc : List PlayerS × List Crate × List Pickup × List Particle × ℕ) p =>
      let (ps, crates, pickups, parts, i) := acc
      if p.dead then (ps ++ [p], crates, pickups, parts, i)
      else
        let (crates', parts1, newPicks, i) := touchCrates M p i crates
        let pickups := pickups ++ newPicks
        let (p', pickups', parts2, i) := touchPickups M i p pickups
        (ps ++ [p'], crates', pickups', parts ++ parts1 ++ parts2, i))
    ([], s.crates, s.pickups, [], s.randIdx)
  { s with
    players := acc.1
    crates := (acc.2.1).filter (fun c => !c.dead)
    pickups := (acc.2.2.1).filter (fun pk => !pk.dead)
    particles := s.particles ++ acc.2.2.2.1
    randIdx := acc.2.2.2.2 }

/-! ## Enemy AI director (source lines 604-666) -/

/-- The current players restricted to the identities that were alive when
the tick started (`activePlayers` is captured once at the head of `update`;
JavaScript array entries are references, so later phases observe current
field values of exactly those players). -/
def activeOf (aliveIds : List String) (players : List PlayerS) : List PlayerS :=
  players.filter (fun p => aliveIds.contains p.id)

/-- Target acquisition (source lines 607-612): nearest active player
(first wins on ties; `minDist` starts at Infinity so any player beats the
initial threshold). -/
def nearestPlayer (act : List PlayerS) (epos : Vec2) : Option PlayerS :=
  (act.foldl
    (fun (acc : Option (PlayerS × ℝ)) p =>
      let d := hypot (p.pos.x - epos.x) (p.pos.y - epos.y)
      match acc with
      | none => some (p, d)
      | some (q, m) => if d < m then some (p, d) else some (q, m))
    none).map (·.1)

/-- Flocking repulsion (source lines 634-645): sum over every other enemy
within `radius_i + radius_j + 20` units, weighted by overlap depth and
scaled by 0.8. -/
def flockForce (es : List EnemyS) (idx : ℕ) (e : EnemyS) (mf : Vec2) : Vec2 :=
  es.enum.foldl
    (fun (mf : Vec2) oj =>
      let (j, other) := oj
      if idx = j then mf
      else
        let diffX := e.pos.x - other.pos.x
        let diffY := e.pos.y - other.pos.y
        let d := hypot diffX diffY
        let repelDist := e.radius + other.radius + 20
        if d < repelDist ∧ d > 0 then
          let repelForce := (repelDist - d) / repelDist
          ⟨mf.x + (diffX / d) * repelForce * 0.8,
           mf.y + (diffY / d) * repelForce * 0.8⟩
        else mf)
    mf

/-- The tail physics every enemy gets each tick (source lines 662-665):
friction, integration, obstacle collision, animation phase from the
post-collision velocity. -/
def enemyPhysics (M : MathImpl) (e : EnemyS) : EnemyS :=
  let vel : Vec2 := ⟨e.vel.x * FRICTION, e.vel.y * FRICTION⟩
  let pos : Vec2 := ⟨e.pos.x + vel.x, e.pos.y + vel.y⟩
  let (pos, vel) := checkEnvironmentCollision M pos vel e.radius
  { e with
    pos := pos
    vel := vel
    animFrame := e.animFrame + hypot vel.x vel.y * 0.1 }

/-- One enemy's per-tick update (the `forEach` body, source lines 606-666):
re-resolve the nearest active player, steer (seek, or flee when a shooter
is within 300 units), flock against the other enemies' current positions,
fire when the attack gate opens, decrement the cooldown, then tail
physics. -/
def stepEnemy (M : MathImpl) (act : List PlayerS) (es : List EnemyS)
    (idx : ℕ) (e : EnemyS) (i : ℕ) : EnemyS × List Bullet × ℕ :=
  match nearestPlayer act e.pos with
  | none => (enemyPhysics M e, [], i)
  | some t =>
    let dx := t.pos.x - e.pos.x
    let dy := t.pos.y - e.pos.y
    let dist := hypot dx dy
    let e := { e with rotation := M.atan2F dy dx }
    let baseSpeed : ℝ :=
      if e.enemyType = EnemyKind.boss then 0.2
      else if e.enemyType = EnemyKind.shooter then 0.25 else 0.35
    let speedMod := 1 / e.visuals.scale
    let speed := baseSpeed * speedMod
    let mf : Vec2 :=
      if e.enemyType = EnemyKind.shooter ∧ dist < 300 then
        ⟨0 - M.cosF e.rotation * speed, 0 - M.sinF e.rotation * speed⟩
      else
        ⟨0 + M.cosF e.rotation * speed, 0 + M.sinF e.rotation * speed⟩
    let mf := flockForce es idx e mf
    let e := { e with vel := ⟨e.vel.x + mf.x, e.vel.y + mf.y⟩ }
    let fired : EnemyS × List Bullet × ℕ :=
      if e.enemyType = EnemyKind.shooter ∧ e.attackCooldown ≤ (0 : ℝ) ∧ dist < 550 then
        let angle := M.atan2F (t.pos.y - e.pos.y) (t.pos.x - e.pos.x)
        let (b, _parts, i) :=
          spawnBullet M e.pos ⟨M.cosF angle * 7, M.sinF angle * 7⟩ e.id .enemyNormal i
        let (r, i) := M.rnd i
        ({ e with attackCooldown := 80 + r * 40 }, [b], i)
      else if e.enemyType = EnemyKind.boss ∧ e.attackCooldown ≤ (0 : ℝ) then
        let acc := (List.range 16).foldl
          (fun (acc : List Bullet × ℕ) k =>
            let a := e.rotation + (Real.pi / 8) * (k : ℝ)
            let (b, _parts, i') :=
              spawnBullet M e.pos ⟨M.cosF a * 5, M.sinF a * 5⟩ e.id .enemyNormal acc.2
            (acc.1 ++ [b], i'))
          ([], i)
        ({ e with attackCooldown := 120 }, acc.1, acc.2)
      else (e, [], i)
    let e := fired.1
    let e := if e.attackCooldown > 0 then { e with attackCooldown := e.attackCooldown - 1 } else e
    (enemyPhysics M e, fired.2.1, fired.2.2)

/-- The enemy `forEach` with in-place element updates: later enemies see
the already-updated positions of earlier ones. -/
def enemyLoop (M : MathImpl) (act : List PlayerS) :
    ℕ → ℕ → List EnemyS → List Bullet → ℕ → List EnemyS × List Bullet × ℕ
  | _, 0, es, bs, i => (es, bs, i)
  | idx, fuel + 1, es, bs, i =>
    match es.get? idx with
    | none => (es, bs, i)
    | some e =>
      let (e', bs', i') := stepEnemy M act es idx e i
      enemyLoop M act (idx + 1) fuel (es.set idx e') (bs ++ bs') i'

/-- The enemy AI phase of the tick. -/
def enemyPhase (M : MathImpl) (aliveIds : List String) (s : GState) : GState :=
  let act := activeOf aliveIds s.players
  let (es, bs, i) := enemyLoop M act 0 s.enemies.length s.enemies [] s.randIdx
  { s with
    enemies := es
    bullets := s.bullets ++ bs
    randIdx := i }

/-! ## Crystal collection (source lines 668-681) -/

/-- Index of the first active player within 50 units of the crystal (the
`for … of activePlayers` loop with `break`). -/
def firstCollectorIdx (aliveIds : List String) (players : List PlayerS)
    (c : Crystal) : Option ℕ :=
  (players.enum.find?
    (fun jp =>
      aliveIds.contains jp.2.id &&
      decide (hypot (jp.2.pos.x - c.pos.x) (jp.2.pos.y - c.pos.y) < 50))).map (·.1)

/-- Add `amt` to the score of the player at index `j`. -/
def addScoreAt (ps : List PlayerS) (j : ℕ) (amt : ℝ) : List PlayerS :=
  match ps.get? j with
  | some q => ps.set j { q with score := q.score + amt }
  | none => ps

/-- The crystal collection filter (source lines 668-681): a crystal within
50 units of an active player is removed; it bursts into particles, bumps
the session-wide collected count, and awards 50 score to the collector. -/
def crystalLoop (M : MathImpl) (aliveIds : List String) :
    List Crystal → List PlayerS → ℕ → List Particle → ℕ →
    List Crystal × List PlayerS × ℕ × List Particle × ℕ
  | [], ps, n, parts, i => ([], ps, n, parts, i)
  | c :: rest, ps, n, parts, i =>
    match firstCollectorIdx aliveIds ps c with
    | some j =>
      let (parts1, i) := spawnParticle M c.pos (.lit ("#a855f7")) 15 .spark i
      crystalLoop M aliveIds rest (addScoreAt ps j 50) (n + 1) (parts ++ parts1) i
    | none =>
      let (rest', ps', n', parts', i') := crystalLoop M aliveIds rest ps n parts i
      (c :: rest', ps', n', parts', i')

/-- The crystal collection phase of the tick. -/
def crystalPhase (M : MathImpl) (aliveIds : List String) (s : GState) : GState :=
  let (cs, ps, n, parts, i) :=
    crystalLoop M aliveIds s.crystals s.players s.crystalsCollected [] s.randIdx
  { s with
    crystals := cs
    players := ps
    crystalsCollected := n
    particles := s.particles ++ parts
    randIdx := i }

/-! ## Bullet updates (source lines 683-757) -/

/-- The mutable context a bullet's processing can touch. -/
structure BulletCtx where
  enemies : List EnemyS
  players : List PlayerS
  crates : List Crate
  pickups : List Pickup
  particles : List Particle
  randIdx : ℕ

/-- The homing target of a sniper bullet: nearest enemy strictly within
800 units (source lines 689-694; dead enemies are not excluded there). -/
def homingTarget (enemies : List EnemyS) (bpos : Vec2) : Option EnemyS :=
  (scanEnemies bpos enemies (none, 800)).1

/-- Sniper homing (source lines 688-701): steer the velocity 20% of the
way toward the target direction at the current speed. -/
def homing (M : MathImpl) (enemies : List EnemyS) (b : Bullet) : Bullet :=
  match homingTarget enemies b.pos with
  | none => b
  | some t =>
    let targetAngle := M.atan2F (t.pos.y - b.pos.y) (t.pos.x - b.pos.x)
    let currentSpeed := hypot b.vel.x b.vel.y
    { b with vel :=
        ⟨b.vel.x + (M.cosF targetAngle * currentSpeed - b.vel.x) * 0.2,
         b.vel.y + (M.sinF targetAngle * currentSpeed - b.vel.y) * 0.2⟩ }

/-- The environment-wall test (source lines 708-712): is the bullet
strictly inside a building's footprint rectangle? -/
def bulletHitsBuilding (o : EnvObj) (pos : Vec2) : Bool :=
  decide (o.kind = EnvKind.building ∧
    pos.x > o.pos.x - o.size.x / 2 ∧ pos.x < o.pos.x + o.size.x / 2 ∧
    pos.y > o.pos.y - o.size.y / 2 ∧ pos.y < o.pos.y + o.size.y / 2)

/-- Result of a bullet's pass over the crate registry. -/
structure CrateHitRes where
  crates : List Crate
  hit : Bool
  particles : List Particle
  pickups : List Pickup
  randIdx : ℕ

/-- The bullet-vs-crate loop (source lines 725-738): first live crate in
range takes the damage and stops the bullet (`break`); a crate driven to
hp ≤ 0 dies and spawns exactly one weapon pickup at its location. -/
def hitCrates (M : MathImpl) (b : Bullet) (i : ℕ) : List Crate → CrateHitRes
  | [] => ⟨[], false, [], [], i⟩
  | c :: rest =>
    if c.dead then
      let r := hitCrates M b i rest
      { r with crates := c :: r.crates }
    else if hypot (b.pos.x - c.pos.x) (b.pos.y - c.pos.y) < c.radius + b.radius then
      let c := { c with hp := c.hp - b.damage }
      let (parts1, i) := spawnParticle M b.pos (.lit ("#f97316")) 3 .spark i
      if c.hp ≤ (0 : ℝ) then
        let c := { c with dead := true }
        let (parts2, i) := spawnParticle M c.pos (.lit ("#f97316")) 15 .spark i
        let (pk, i) := spawnPickup M c.pos i
        ⟨c :: rest, true, parts1 ++ parts2, [pk], i⟩
      else ⟨c :: rest, true, parts1, [], i⟩
    else
      let r := hitCrates M b i rest
      { r with crates := c :: r.crates }

/-- Result of a bullet's pass over the enemy registry. -/
structure EnemyHitRes where
  enemies : List EnemyS
  hit : Bool
  killed : Bool
  particles : List Particle
  randIdx : ℕ

/-- The bullet-vs-target loop for player-owned bullets (source lines
741-755 with `targets = enemies`): first live enemy in range takes the
damage and stops the bullet; a kill marks the enemy dead (the `type`
check `'enemy' || 'boss'` always holds here, so a kill scores). -/
def hitEnemies (M : MathImpl) (b : Bullet) (i : ℕ) : List EnemyS → EnemyHitRes
  | [] => ⟨[], false, false, [], i⟩
  | t :: rest =>
    if t.dead then
      let r := hitEnemies M b i rest
      { r with enemies := t :: r.enemies }
    else if hypot (b.pos.x - t.pos.x) (b.pos.y - t.pos.y) < t.radius + b.radius then
      let t := { t with hp := t.hp - b.damage }
      let (parts1, i) := spawnParticle M b.pos t.color 5 .blood i
      if t.hp ≤ (0 : ℝ) then
        let t := { t with dead := true }
        let (parts2, i) := spawnParticle M t.pos t.color 20 .blood i
        ⟨t :: rest, true, true, parts1 ++ parts2, i⟩
      else ⟨t :: rest, true, false, parts1, i⟩
    else
      let r := hitEnemies M b i rest
      { r with enemies := t :: r.enemies }

/-- Result of a bullet's pass over the player registry. -/
structure PlayerHitRes where
  players : List PlayerS
  hit : Bool
  particles : List Particle
  randIdx : ℕ

/-- The bullet-vs-target loop for enemy-owned bullets (source lines
741-755 with `targets = players`): first live player in range takes the
damage; the `'enemy' || 'boss'` type check fails for players, so no score
is awarded. -/
def hitPlayers (M : MathImpl) (b : Bullet) (i : ℕ) : List PlayerS → PlayerHitRes
  | [] => ⟨[], false, [], i⟩
  | t :: rest =>
    if t.dead then
      let r := hitPlayers M b i rest
      { r with players := t :: r.players }
    else if hypot (b.pos.x - t.pos.x) (b.pos.y - t.pos.y) < t.radius + b.radius then
      let t := { t with hp := t.hp - b.damage }
      let (parts1, i) := spawnParticle M b.pos t.color 5 .blood i
      if t.hp ≤ (0 : ℝ) then
        let t := { t with dead := true }
        let (parts2, i) := spawnParticle M t.pos t.color 20 .blood i
        ⟨t :: rest, true, parts1 ++ parts2, i⟩
      else ⟨t :: rest, true, parts1, i⟩
    else
      let r := hitPlayers M b i rest
      { r with players := t :: r.players }

/-- Homing (sniper only), position integration and the lifetime decrement
(source lines 686-704). -/
def moveBullet (M : MathImpl) (es : List EnemyS) (b : Bullet) : Bullet :=
  let b := if b.bulletType = BulletKind.sniper then homing M es b else b
  { b with
    pos := ⟨b.pos.x + b.vel.x, b.pos.y + b.vel.y⟩
    lifeTime := b.lifeTime - 1 }

/-- The first half of a bullet's per-tick processing (source lines
686-716): homing, integration, lifetime decrement, and the environment
wall check (which zeroes the lifetime and emits smoke on a hit). -/
def stepBulletPre (M : MathImpl) (env : List EnvObj) (ctx : BulletCtx)
    (b : Bullet) : Bullet × BulletCtx :=
  let b := moveBullet M ctx.enemies b
  if (env.find? (fun o => bulletHitsBuilding o b.pos)).isSome then
    ({ b with lifeTime := 0 },
     { ctx with
        particles := ctx.particles ++
          (spawnParticle M b.pos (.lit ("#555")) 5 .smoke ctx.randIdx).1
        randIdx := (spawnParticle M b.pos (.lit ("#555")) 5 .smoke ctx.randIdx).2 })
  else (b, ctx)

/-- The second half of a bullet's per-tick processing (source lines
720-756, reached only while the lifetime is still positive): the crate
pass for player-owned bullets and the entity pass against the opposing
faction. -/
def stepBulletHits (M : MathImpl) (aliveIds : List String) (ctx : BulletCtx)
    (b : Bullet) : Bullet × BulletCtx :=
  if b.ownerId.startsWith ("p") then
    let r := hitCrates M b ctx.randIdx ctx.crates
    let ctx := { ctx with
      crates := r.crates
      particles := ctx.particles ++ r.particles
      pickups := ctx.pickups ++ r.pickups
      randIdx := r.randIdx }
    let b := if r.hit then { b with lifeTime := 0 } else b
    if b.lifeTime > 0 then
      let r2 := hitEnemies M b ctx.randIdx ctx.enemies
      let ctx := { ctx with
        enemies := r2.enemies
        particles := ctx.particles ++ r2.particles
        randIdx := r2.randIdx }
      let ctx :=
        if r2.killed then
          { ctx with players := ctx.players.map (fun p =>
              if aliveIds.contains p.id then { p with score := p.score + 100 } else p) }
        else ctx
      let b := if r2.hit then { b with lifeTime := 0 } else b
      (b, ctx)
    else (b, ctx)
  else
    let r2 := hitPlayers M b ctx.randIdx ctx.players
    let ctx := { ctx with
      players := r2.players
      particles := ctx.particles ++ r2.particles
      randIdx := r2.randIdx }
    let b := if r2.hit then { b with lifeTime := 0 } else b
    (b, ctx)

/-- One bullet's per-tick processing (the `forEach` body, source lines
686-757): the pre stage, then — only while the lifetime is still
positive — the hit stage. -/
def stepBullet (M : MathImpl) (aliveIds : List String) (env : List EnvObj)
    (ctx : BulletCtx) (b : Bullet) : Bullet × BulletCtx :=
  let (b, ctx) := stepBulletPre M env ctx b
  if b.lifeTime ≤ 0 then (b, ctx)
  else stepBulletHits M aliveIds ctx b

/-- The bullet phase of the tick: the environment window around the camera
is queried once (source line 684), then each bullet is processed in order,
with mutations visible to later bullets. -/
def bulletPhase (cfg : Config) (aliveIds : List String) (s : GState) : GState :=
  let env := getEnvironmentInRect cfg.math s.camera.x s.camera.y
    (cfg.innerW * 1.5) (cfg.innerH * 1.5)
  let acc := s.bullets.foldl
    (fun (acc : List Bullet × BulletCtx) b =>
      let (b', ctx) := stepBullet cfg.math aliveIds env acc.2 b
      (acc.1 ++ [b'], ctx))
    ([], ⟨s.enemies, s.players, s.crates, s.pickups, s.particles, s.randIdx⟩)
  { s with
    bullets := acc.1
    enemies := acc.2.enemies
    players := acc.2.players
    crates := acc.2.crates
    pickups := acc.2.pickups
    particles := acc.2.particles
    randIdx := acc.2.randIdx }

/-! ## End-of-tick bookkeeping (source lines 759-773) -/

/-- The purge pass (source lines 759-760): bullets with exhausted lifetime
and dead enemies leave their registries. -/
def purgePhase (s : GState) : GState :=
  { s with
    bullets := s.bullets.filter (fun b => decide (b.lifeTime > 0))
    enemies := s.enemies.filter (fun e => !e.dead) }

/-- The particle pass (source lines 762-768): integrate, decay, damp,
purge. -/
def particlePhase (s : GState) : GState :=
  let ps := s.particles.map (fun p =>
    { p with
      pos := ⟨p.pos.x + p.vel.x, p.pos.y + p.vel.y⟩
      life := p.life - 1
      vel := ⟨p.vel.x * 0.9, p.vel.y * 0.9⟩ })
  { s with particles := ps.filter (fun p => decide (p.life > 0)) }

/-- The smooth camera follow (source lines 770-773). -/
def cameraPhase (s : GState) : GState :=
  let targetCam := getCameraCenter s.players
  { s with camera :=
      ⟨s.camera.x + (targetCam.x - s.camera.x) * 0.05,
       s.camera.y + (targetCam.y - s.camera.y) * 0.05⟩ }

/-! ## The tick (`update`, source lines 496-774) and the session driver -/

/-- A terminal session event fired by the tick. -/
inductive GameEvent
  | gameOver
  | levelComplete
deriving DecidableEq

/-- `update()` (source lines 496-774): the defeat check runs first (all
players dead → `onGameOver()` and return with nothing else executed), then
the victory check (boss spawned and gone → `onLevelComplete()` and
return), then the phase pipeline in source order. -/
def update (cfg : Config) (keys : String → Bool) (s : GState) :
    GState × List GameEvent :=
  let activePlayers := s.players.filter (fun p => !p.dead)
  if activePlayers.length = 0 then (s, [.gameOver])
  else
    let boss := s.enemies.find? (fun e => decide (e.etype = EntityType.boss))
    if s.bossSpawned && boss.isNone then (s, [.levelComplete])
    else
      let aliveIds := activePlayers.map (fun p => p.id)
      let s := spawnPhase cfg s
      let s := playerPhase cfg.math keys s
      let s := interactPhase cfg.math s
      let s := enemyPhase cfg.math aliveIds s
      let s := crystalPhase cfg.math aliveIds s
      let s := bulletPhase cfg aliveIds s
      let s := purgePhase s
      let s := particlePhase s
      let s := cameraPhase s
      (s, [])

/-- The session driver: `loop()` re-schedules itself once per frame, and a
terminal event ends the session — `onGameOver`/`onLevelComplete` move the
App state machine off PLAYING, whose effect cleanup cancels the pending
animation frame before another tick can run (App lines 23-34, GameCanvas
lines 182-188 and 1046-1050). `runTicks t n s` runs at most `n` ticks
starting at tick number `t` (the key stream is indexed by tick number) and
stops at the first tick that fires an event. -/
def runTicks (cfg : Config) (keysAt : ℕ → String → Bool) :
    ℕ → ℕ → GState → GState × List GameEvent
  | _, 0, s => (s, [])
  | t, n + 1, s =>
    let (s', evs) := update cfg (keysAt t) s
    if evs.isEmpty then runTicks cfg keysAt (t + 1) n s'
    else (s', evs)

/-- `initGame()` (source lines 204-232): the two fixed players, empty
registries, reset counters. The camera ref is not reset there, so it is a
parameter. -/
def initGame (camera : Vec2) : GState :=
  { players :=
      [{ id := "p1"
         role := .boy
         weapon := .sniper
         pos := ⟨-50, 0⟩
         vel := ⟨0, 0⟩
         radius := 20
         color := .lit ("#3b82f6")
         hp := 200
         maxHp := 200
         dead := false
         rotation := 0
         animFrame := 0
         cooldown := 0
         maxCooldown := 90
         dashCooldown := 0
         score := 0
         isInvulnerable := false },
       { id := "p2"
         role := .girl
         weapon := .ak47
         pos := ⟨50, 0⟩
         vel := ⟨0, 0⟩
         radius := 18
         color := .lit ("#ec4899")
         hp := 150
         maxHp := 150
         dead := false
         rotation := 0
         animFrame := 0
         cooldown := 0
         maxCooldown := 10
         dashCooldown := 0
         score := 0
         isInvulnerable := false }]
    enemies := []
    bullets := []
    particles := []
    crystals := []
    crates := []
    pickups := []
    camera := camera
    waveTimer := 0
    bossSpawned := false
    crystalsCollected := 0
    randIdx := 0 }

/-! ## Auxiliary definitions used by the verification statements -/

/-- An oracle invocation in an arbitrary engine context: the oracle neither
reads nor writes the game state, so a call returns the pure result and the
context unchanged. Used to state purity of `getEnvironmentAt`. -/
def oracleCall (M : MathImpl) (s : GState) (gx gy : ℤ) :
    Option EnvObj × GState :=
  (getEnvironmentAt M gx gy, s)

/-- Distance from a point to (the nearest boundary point of) a building's
footprint rectangle, as the resolver measures it. -/
def rectDist (env : EnvObj) (pos : Vec2) : ℝ :=
  hypot (pos.x - (clampToRect env pos).x) (pos.y - (clampToRect env pos).y)

/-- Number of boss-typed entries in the enemy registry. -/
def bossCount (s : GState) : ℕ :=
  s.enemies.countP (fun e => decide (e.etype = EntityType.boss))

/-- The genuine real-analysis instantiation of the Math model:
`Math.atan2(y, x)` is the argument of the complex number `x + iy`. -/
def realMath : MathImpl :=
  { sinF := Real.sin
    cosF := Real.cos
    atan2F := fun y x => Complex.arg ⟨x, y⟩
    randF := fun _ => 0 }

/-- A trivial Math model for witnesses that only need a fixed point of
sin/cos at 0. -/
def trivMath : MathImpl :=
  { sinF := fun _ => 0
    cosF := fun _ => 1
    atan2F := fun _ _ => 0
    randF := fun _ => 0 }

/-- A Math model whose sine is the constant `0.9 / 43758.5453`, making the
oracle's hash value `0.9` at every cell. -/
def hashMath : MathImpl :=
  { sinF := fun _ => 0.9 / 43758.5453
    cosF := fun _ => 0
    atan2F := fun _ _ => 0
    randF := fun _ => 0 }

/-- A default session configuration for witnesses. -/
def wCfg : Config :=
  { math := trivMath
    levelInfo := none
    innerW := 400
    innerH := 400 }

/-- Witness fixture: player 1 moved to the origin with an open cooldown. -/
def wSniper : PlayerS :=
  { id := "p1"
    role := .boy
    weapon := .sniper
    pos := ⟨0, 0⟩
    vel := ⟨0, 0⟩
    radius := 20
    color := .lit ("#3b82f6")
    hp := 200
    maxHp := 200
    dead := false
    rotation := 0
    animFrame := 0
    cooldown := 0
    maxCooldown := 90
    dashCooldown := 0
    score := 0
    isInvulnerable := false }

/-- Witness fixture: a session state in which both players are dead. -/
def deadState : GState :=
  { initGame ⟨0, 0⟩ with
    players := (initGame ⟨0, 0⟩).players.map (fun p => { p with dead := true }) }

/-- Witness fixture: a fresh session that has already collected 12
crystals (the level-1 boss threshold). -/
def bossReadyState : GState :=
  { initGame ⟨0, 0⟩ with crystalsCollected := 12 }

/-- Witness fixture: an ak47 bullet with 5 ticks of lifetime left. -/
def wBullet : Bullet :=
  { id := "0.0"
    pos := ⟨0, 0⟩
    vel := ⟨0, 0⟩
    radius := 4
    color := .lit ("#fcd34d")
    ownerId := "p1"
    damage := 20
    lifeTime := 5
    isReflected := false
    bulletType := .ak47 }

/-- Counterexample fixture: the same bullet with a single tick left. -/
def wBulletLast : Bullet :=
  { wBullet with lifeTime := 1 }

/-- Counterexample fixture: a building whose footprint contains the origin. -/
def wBuilding : EnvObj :=
  { id := "b-0-0"
    kind := .building
    pos := ⟨0, 0⟩
    size := ⟨120, 100⟩
    color := .lit ("#374151") }

/-- Counterexample fixture: a wide building centered at the origin. -/
def wBuildingWide : EnvObj :=
  { id := "b-1-1"
    kind := .building
    pos := ⟨0, 0⟩
    size := ⟨180, 150⟩
    color := .lit ("#1f2937") }

/-- Witness fixture: an empty bullet-processing context. -/
def wCtx : BulletCtx := ⟨[], [], [], [], [], 0⟩

/-- Witness fixture: a fresh crate at the origin (hp 30, radius 25). -/
def wCrate : Crate :=
  { id := "0.7"
    pos := ⟨0, 0⟩
    vel := ⟨0, 0⟩
    radius := 25
    color := .lit ("#f97316")
    rotation := 0
    hp := 30
    maxHp := 30
    dead := false }

/-- Witness fixture: a shotgun pellet at the origin (damage 12). -/
def wPellet : Bullet :=
  { id := "0.9"
    pos := ⟨0, 0⟩
    vel := ⟨0, 0⟩
    radius := 3
    color := .lit ("#f97316")
    ownerId := "p2"
    damage := 12
    lifeTime := 30
    isReflected := false
    bulletType := .shotgun }

/-- Witness fixture: a walker enemy standing 100 units right of the origin. -/
def wEnemy : EnemyS :=
  { id := "0.4"
    etype := .enemy
    enemyType := .walker
    pos := ⟨100, 0⟩
    vel := ⟨0, 0⟩
    radius := 30
    color := .hsl 10 60 40
    rotation := 0
    animFrame := 0
    hp := 60
    maxHp := 60
    dead := false
    targetId := none
    attackCooldown := 0
    visuals := ⟨10, 1, false, false, false⟩ }

/-! ## Shared helper lemmas -/

/-- The oracle's hash value is nonnegative. -/
lemma envVal_nonneg (M : MathImpl) (gx gy : ℤ) : 0 ≤ envVal M gx gy :=
  abs_nonneg _

/-- The oracle's hash value lies strictly below 1. -/
lemma envVal_lt_one (M : MathImpl) (gx gy : ℤ) : envVal M gx gy < 1 := by
  have h : envSeed M gx gy - (⌊envSeed M gx gy⌋ : ℝ) = Int.fract (envSeed M gx gy) := rfl
  rw [envVal, h, abs_of_nonneg (Int.fract_nonneg _)]
  exact Int.fract_lt_one _

/-- Membership in a JS-style inclusive integer loop range. -/
lemma mem_cellRange (lo hi g : ℤ) : g ∈ cellRange lo hi ↔ lo ≤ g ∧ g ≤ hi := by
  constructor
  · intro hg
    obtain ⟨k, hk, hkg⟩ := List.mem_map.mp hg
    have h1 := Int.lt_toNat.mp (List.mem_range.mp hk)
    omega
  · rintro ⟨h1, h2⟩
    exact List.mem_map.mpr
      ⟨(g - lo).toNat, List.mem_range.mpr (Int.lt_toNat.mpr (by omega)), by omega⟩

/-! ## C4 — environment oracle policy -/

/-- C4: For every integer grid cell `(gx, gy)`: the sine-based hash value
`val` lies in `[0,1)`; if `max |gx| |gy| < 2` the oracle returns none
(spawn safe zone); otherwise `val > 0.85` yields a building whose size tier
is wide (180) exactly when `val > 0.95` and whose color is the dark shade
exactly when `val > 0.92`; `0.3 < val ≤ 0.85` yields a tree; and
`val ≤ 0.3` yields none. -/
theorem getEnvironmentAt_policy (M : MathImpl) (gx gy : ℤ) :
    (0 ≤ envVal M gx gy ∧ envVal M gx gy < 1) ∧
    (max |gx| |gy| < 2 → getEnvironmentAt M gx gy = none) ∧
    (2 ≤ max |gx| |gy| →
      (envVal M gx gy > 0.85 →
        ∃ o, getEnvironmentAt M gx gy = some o ∧ o.kind = EnvKind.building ∧
          o.size.x = (if envVal M gx gy > 0.95 then (180 : ℝ) else 120) ∧
          o.color = (if envVal M gx gy > 0.92 then ColorT.lit ("#1f2937")
                     else ColorT.lit ("#374151"))) ∧
      (0.3 < envVal M gx gy → envVal M gx gy ≤ 0.85 →
        ∃ o, getEnvironmentAt M gx gy = some o ∧ o.kind = EnvKind.tree) ∧
      (envVal M gx gy ≤ 0.3 → getEnvironmentAt M gx gy = none)) := by
  refine ⟨⟨envVal_nonneg M gx gy, envVal_lt_one M gx gy⟩, ?_, ?_⟩
  · intro h
    obtain ⟨h1, h2⟩ := max_lt_iff.mp h
    unfold getEnvironmentAt
    rw [if_pos ⟨h1, h2⟩]
  · intro h
    have hnot : ¬(|gx| < 2 ∧ |gy| < 2) := by
      rcases le_max_iff.mp h with h' | h' <;> omega
    refine ⟨?_, ?_, ?_⟩
    · intro hv
      unfold getEnvironmentAt
      rw [if_neg hnot, if_pos hv]
      exact ⟨_, rfl, rfl, rfl, rfl⟩
    · intro hv1 hv2
      unfold getEnvironmentAt
      rw [if_neg hnot, if_neg (by linarith), if_pos hv1]
      exact ⟨_, rfl, rfl⟩
    · intro hv
      unfold getEnvironmentAt
      rw [if_neg hnot, if_neg (by linarith), if_neg (by linarith)]

/-- C4 witness: under `hashMath` the hash value at cell (5, 0) is 0.9, so
the oracle places there a narrow, light-shaded building. -/
theorem getEnvironmentAt_policy_witness :
    (2 ≤ max |(5 : ℤ)| |(0 : ℤ)| ∧ envVal hashMath 5 0 > 0.85) ∧
    (∃ o, getEnvironmentAt hashMath 5 0 = some o ∧ o.kind = EnvKind.building ∧
      o.size.x = (if envVal hashMath 5 0 > 0.95 then (180 : ℝ) else 120) ∧
      o.color = (if envVal hashMath 5 0 > 0.92 then ColorT.lit ("#1f2937")
                 else ColorT.lit ("#374151"))) := by
  have hseed : envSeed hashMath 5 0 = 0.9 := by
    unfold envSeed hashMath
    norm_num
  have hval : envVal hashMath 5 0 = 0.9 := by
    unfold envVal
    rw [hseed]
    rw [show ⌊(0.9 : ℝ)⌋ = 0 by rw [Int.floor_eq_zero_iff]; constructor <;> norm_num]
    norm_num
  have h1 : (2 : ℤ) ≤ max |(5 : ℤ)| |(0 : ℤ)| := by decide
  have h2 : envVal hashMath 5 0 > 0.85 := by rw [hval]; norm_num
  exact ⟨⟨h1, h2⟩, ((getEnvironmentAt_policy hashMath 5 0).2.2 h1).1 h2⟩

/-! ## C5 — oracle purity -/

/-- C5: the environment oracle is pure and deterministic: an invocation in
any two engine contexts (any game states, hence any time and any call
order) returns the identical optional obstacle — same kind, position,
size, and color — and leaves the context untouched. -/
theorem getEnvironmentAt_pure (M : MathImpl) (s₁ s₂ : GState) (gx gy : ℤ) :
    (oracleCall M s₁ gx gy).1 = (oracleCall M s₂ gx gy).1 ∧
    (oracleCall M s₁ gx gy).2 = s₁ :=
  ⟨rfl, rfl⟩

/-! ## C6 — spatial region query -/

/-- C6: the region query returns exactly the non-none oracle results of
the cells in the inclusive grid range covering the rectangle, expanded by
one cell of halo in every direction: an obstacle is in the result iff some
cell of that range produces it. -/
theorem getEnvironmentInRect_spec (M : MathImpl) (x y w h : ℝ) (o : EnvObj) :
    o ∈ getEnvironmentInRect M x y w h ↔
    ∃ gx gy : ℤ,
      ⌊(x - w / 2) / GRID_CELL_SIZE⌋ - 1 ≤ gx ∧
      gx ≤ ⌊(x + w / 2) / GRID_CELL_SIZE⌋ + 1 ∧
      ⌊(y - h / 2) / GRID_CELL_SIZE⌋ - 1 ≤ gy ∧
      gy ≤ ⌊(y + h / 2) / GRID_CELL_SIZE⌋ + 1 ∧
      getEnvironmentAt M gx gy = some o := by
  unfold getEnvironmentInRect
  simp only [List.mem_flatMap, List.mem_filterMap, mem_cellRange]
  constructor
  · rintro ⟨gx, ⟨hx1, hx2⟩, gy, ⟨hy1, hy2⟩, ho⟩
    exact ⟨gx, gy, hx1, hx2, hy1, hy2, ho⟩
  · rintro ⟨gx, gy, hx1, hx2, hy1, hy2, ho⟩
    exact ⟨gx, ⟨hx1, hx2⟩, gy, ⟨hy1, hy2⟩, ho⟩

/-! ## C7 — sniper shot scenario and the cooldown gate -/

/-- C7: a player whose equipped weapon is sniper, positioned at the origin
with rotation 0, fires exactly one projectile with velocity (35, 0),
damage 150 and lifetime 100, and the player's cooldown is set to 90;
moreover firing is possible only when the current cooldown is ≤ 0 (a
positive cooldown makes the shooting step a no-op). The two trigonometric
hypotheses record that the ambient `Math.cos`/`Math.sin` fix 0 ↦ 1 and
0 ↦ 0, as the real functions do. -/
theorem fireWeapon_sniper_spec (M : MathImpl) (i : ℕ) (p : PlayerS)
    (hw : p.weapon = Weapon.sniper) (hrot : p.rotation = 0)
    (hcos : M.cosF 0 = 1) (hsin : M.sinF 0 = 0) :
    (∃ b, (fireWeapon M i p).2.1 = [b] ∧ b.vel = ⟨35, 0⟩ ∧ b.damage = 150 ∧
      b.lifeTime = 100 ∧ (fireWeapon M i p).1.cooldown = 90) ∧
    (∀ (keys : String → Bool) (j : ℕ) (q : PlayerS), 0 < q.cooldown →
      shootStep M keys j q = (q, [], [], j)) := by
  constructor
  · simp only [fireWeapon, hw, spawnBullet, bulletStats, randId, hrot, hcos, hsin]
    rw [if_neg (by decide : ¬(BulletKind.sniper = BulletKind.enemyNormal))]
    exact ⟨_, rfl, by norm_num [Vec2.mk.injEq], rfl, rfl, trivial⟩
  · intro keys j q hq
    rw [shootStep, if_neg]
    rintro ⟨-, hle⟩
    linarith

/-- C7 witness: the concrete sniper player at the origin under the trivial
Math model. -/
theorem fireWeapon_sniper_spec_witness :
    (wSniper.weapon = Weapon.sniper ∧ wSniper.rotation = 0 ∧
      trivMath.cosF 0 = 1 ∧ trivMath.sinF 0 = 0) ∧
    ((∃ b, (fireWeapon trivMath 0 wSniper).2.1 = [b] ∧ b.vel = ⟨35, 0⟩ ∧
        b.damage = 150 ∧ b.lifeTime = 100 ∧
        (fireWeapon trivMath 0 wSniper).1.cooldown = 90) ∧
     (∀ (keys : String → Bool) (j : ℕ) (q : PlayerS), 0 < q.cooldown →
        shootStep trivMath keys j q = (q, [], [], j))) :=
  ⟨⟨rfl, rfl, rfl, rfl⟩,
   fireWeapon_sniper_spec trivMath 0 wSniper rfl rfl rfl rfl⟩

/-! ## C1 — defeat precedence and exactly-once game over -/

/-- A tick that starts with every player dead fires the defeat event and
does nothing else: the state comes back untouched. -/
lemma update_all_dead (cfg : Config) (keys : String → Bool) (s : GState)
    (h : s.players.all (fun p => p.dead) = true) :
    update cfg keys s = (s, [GameEvent.gameOver]) := by
  have hfil : s.players.filter (fun p => !p.dead) = [] := by
    rw [List.filter_eq_nil_iff]
    intro a ha
    have hd := List.all_eq_true.mp h a ha
    simp [hd]
  unfold update
  rw [hfil]
  rfl

/-- C1: for every tick at whose start no living player remains, the defeat
check runs before any other update: that tick fires `onGameOver` and
returns the state unchanged (no enemy update, projectile update, spawn,
crystal collection or particle update executes), and since the event is
terminal the driver runs no later tick — over any remaining tick budget
the session produces exactly the single `gameOver` event and the state is
never touched again. -/
theorem runTicks_defeat (cfg : Config) (keysAt : ℕ → String → Bool)
    (t n : ℕ) (s : GState) (hn : 1 ≤ n)
    (h : s.players.all (fun p => p.dead) = true) :
    runTicks cfg keysAt t n s = (s, [GameEvent.gameOver]) := by
  cases n with
  | zero => omega
  | succ m =>
    rw [runTicks, update_all_dead cfg (keysAt t) s h]
    rfl

/-- C1 witness: one tick budget on the concrete all-dead state. -/
theorem runTicks_defeat_witness :
    (1 ≤ 1 ∧ deadState.players.all (fun p => p.dead) = true) ∧
    runTicks wCfg (fun _ _ => false) 0 1 deadState = (deadState, [GameEvent.gameOver]) :=
  ⟨⟨le_refl 1, rfl⟩,
   runTicks_defeat wCfg (fun _ _ => false) 0 1 deadState (le_refl 1) rfl⟩

/-! ## C9 — crate death, single pickup, idempotent death transition -/

/-- C9: a live crate in range of a pellet takes exactly the pellet's
damage, dies exactly when its hp is driven to ≤ 0, and emits exactly one
pickup on death and none otherwise; an already-dead crate is skipped by
both the bullet pass and the player-touch pass (no pickup, no change); in
particular a crate with hp 30 receiving three pellets of damage 12 dies on
the third hit (30 − 36 ≤ 0) with exactly one pickup, and any further
pellet or touch on the dead crate spawns nothing. -/
theorem crateDeath_spec (M : MathImpl) (c : Crate) (b : Bullet) (i : ℕ) :
    (c.dead = false →
      hypot (b.pos.x - c.pos.x) (b.pos.y - c.pos.y) < c.radius + b.radius →
      ∃ c', (hitCrates M b i [c]).crates = [c'] ∧
        c'.hp = c.hp - b.damage ∧
        (c'.dead = true ↔ c.hp - b.damage ≤ 0) ∧
        c'.pos = c.pos ∧ c'.radius = c.radius ∧
        (hitCrates M b i [c]).hit = true ∧
        (hitCrates M b i [c]).pickups.length =
          (if c.hp - b.damage ≤ 0 then 1 else 0)) ∧
    (c.dead = true → hitCrates M b i [c] = ⟨[c], false, [], [], i⟩) ∧
    (∀ p : PlayerS, c.dead = true → touchCrates M p i [c] = ([c], [], [], i)) ∧
    (c.hp = 30 → c.dead = false → b.damage = 12 →
      hypot (b.pos.x - c.pos.x) (b.pos.y - c.pos.y) < c.radius + b.radius →
      ∃ c1 c2 c3,
        (hitCrates M b i [c]).crates = [c1] ∧ c1.hp = 18 ∧ c1.dead = false ∧
          (hitCrates M b i [c]).pickups = [] ∧
        (hitCrates M b i [c1]).crates = [c2] ∧ c2.hp = 6 ∧ c2.dead = false ∧
          (hitCrates M b i [c1]).pickups = [] ∧
        (hitCrates M b i [c2]).crates = [c3] ∧ c3.dead = true ∧
          (hitCrates M b i [c2]).pickups.length = 1 ∧
        hitCrates M b i [c3] = ⟨[c3], false, [], [], i⟩ ∧
        (∀ p : PlayerS, touchCrates M p i [c3] = ([c3], [], [], i))) := by
  have hit1 : ∀ (c : Crate), c.dead = false →
      hypot (b.pos.x - c.pos.x) (b.pos.y - c.pos.y) < c.radius + b.radius →
      ∃ c', (hitCrates M b i [c]).crates = [c'] ∧
        c'.hp = c.hp - b.damage ∧
        (c'.dead = true ↔ c.hp - b.damage ≤ 0) ∧
        c'.pos = c.pos ∧ c'.radius = c.radius ∧
        (hitCrates M b i [c]).hit = true ∧
        (hitCrates M b i [c]).pickups.length =
          (if c.hp - b.damage ≤ 0 then 1 else 0) := by
    intro c hd hr
    simp only [hitCrates, hd, Bool.false_eq_true, if_false, if_pos hr]
    split
    · rename_i hle
      exact ⟨_, rfl, rfl, by simp [hle], rfl, rfl, rfl, rfl⟩
    · rename_i hgt
      refine ⟨_, rfl, rfl, ?_, rfl, rfl, rfl, rfl⟩
      simp [hd, hgt]
  have hdead : ∀ (c : Crate), c.dead = true →
      hitCrates M b i [c] = ⟨[c], false, [], [], i⟩ := by
    intro c hd
    simp only [hitCrates, hd, if_true]
  have htouch : ∀ (p : PlayerS) (c : Crate), c.dead = true →
      touchCrates M p i [c] = ([c], [], [], i) := by
    intro p c hd
    simp only [touchCrates, hd, if_true]
  refine ⟨hit1 c, hdead c, fun p => htouch p c, ?_⟩
  intro hhp hd hdmg hr
  obtain ⟨c1, e1, h1hp, h1dead, h1pos, h1rad, _, h1picks⟩ := hit1 c hd hr
  rw [hhp, hdmg] at h1hp h1dead h1picks
  norm_num at h1hp h1dead h1picks
  have hd1 : c1.dead = false := by simpa using h1dead
  have hr1 : hypot (b.pos.x - c1.pos.x) (b.pos.y - c1.pos.y) < c1.radius + b.radius := by
    rw [h1pos, h1rad]; exact hr
  obtain ⟨c2, e2, h2hp, h2dead, h2pos, h2rad, _, h2picks⟩ := hit1 c1 hd1 hr1
  rw [h1hp, hdmg] at h2hp h2dead h2picks
  norm_num at h2hp h2dead h2picks
  have hd2 : c2.dead = false := by simpa using h2dead
  have hr2 : hypot (b.pos.x - c2.pos.x) (b.pos.y - c2.pos.y) < c2.radius + b.radius := by
    rw [h2pos, h1pos, h2rad, h1rad]; exact hr
  obtain ⟨c3, e3, h3hp, h3dead, h3pos, h3rad, _, h3picks⟩ := hit1 c2 hd2 hr2
  rw [h2hp, hdmg] at h3hp h3dead h3picks
  norm_num at h3hp h3dead h3picks
  have hd3 : c3.dead = true := by simpa using h3dead
  exact ⟨c1, c2, c3, e1, h1hp, hd1, h1picks,
    e2, h2hp, hd2, h2picks,
    e3, hd3, h3picks,
    hdead c3 hd3, fun p => htouch p c3 hd3⟩

/-- C9 witness: the concrete crate and pellet at the origin. -/
theorem crateDeath_spec_witness :
    (wCrate.hp = 30 ∧ wCrate.dead = false ∧ wPellet.damage = 12 ∧
      hypot (wPellet.pos.x - wCrate.pos.x) (wPellet.pos.y - wCrate.pos.y) <
        wCrate.radius + wPellet.radius) ∧
    (∃ c1 c2 c3,
      (hitCrates trivMath wPellet 0 [wCrate]).crates = [c1] ∧ c1.hp = 18 ∧
        c1.dead = false ∧ (hitCrates trivMath wPellet 0 [wCrate]).pickups = [] ∧
      (hitCrates trivMath wPellet 0 [c1]).crates = [c2] ∧ c2.hp = 6 ∧
        c2.dead = false ∧ (hitCrates trivMath wPellet 0 [c1]).pickups = [] ∧
      (hitCrates trivMath wPellet 0 [c2]).crates = [c3] ∧ c3.dead = true ∧
        (hitCrates trivMath wPellet 0 [c2]).pickups.length = 1 ∧
      hitCrates trivMath wPellet 0 [c3] = ⟨[c3], false, [], [], 0⟩ ∧
      (∀ p : PlayerS, touchCrates trivMath p 0 [c3] = ([c3], [], [], 0))) := by
  have hr : hypot (wPellet.pos.x - wCrate.pos.x) (wPellet.pos.y - wCrate.pos.y) <
      wCrate.radius + wPellet.radius := by
    simp only [wPellet, wCrate, hypot]
    norm_num
  exact ⟨⟨rfl, rfl, rfl, hr⟩,
    (crateDeath_spec trivMath wCrate wPellet 0).2.2.2 rfl rfl rfl hr⟩

/-! ## C10 — auto-aim -/

/-- The nearest-enemy scan never increases its distance accumulator and
ends at or below every scanned enemy's distance. -/
lemma scanEnemies_le (pos : Vec2) (l : List EnemyS) (acc : Option EnemyS × ℝ) :
    (scanEnemies pos l acc).2 ≤ acc.2 ∧
    ∀ e ∈ l, (scanEnemies pos l acc).2 ≤ hypot (e.pos.x - pos.x) (e.pos.y - pos.y) := by
  induction l generalizing acc with
  | nil => exact ⟨le_refl _, by simp⟩
  | cons e rest ih =>
    obtain ⟨t, m⟩ := acc
    simp only [scanEnemies]
    split
    · rename_i hlt
      obtain ⟨ih1, ih2⟩ := ih (some e, hypot (e.pos.x - pos.x) (e.pos.y - pos.y))
      refine ⟨le_trans ih1 (le_of_lt hlt), ?_⟩
      intro e' he'
      rcases List.mem_cons.mp he' with h | h
      · subst h; exact ih1
      · exact ih2 e' h
    · rename_i hge
      obtain ⟨ih1, ih2⟩ := ih (t, m)
      refine ⟨ih1, ?_⟩
      intro e' he'
      rcases List.mem_cons.mp he' with h | h
      · subst h; exact le_trans ih1 (not_lt.mp hge)
      · exact ih2 e' h

/-- The scan result is either the untouched accumulator or an enemy of
the list together with its distance. -/
lemma scanEnemies_attained (pos : Vec2) (l : List EnemyS) (acc : Option EnemyS × ℝ) :
    scanEnemies pos l acc = acc ∨
    ∃ e ∈ l, (scanEnemies pos l acc).1 = some e ∧
      (scanEnemies pos l acc).2 = hypot (e.pos.x - pos.x) (e.pos.y - pos.y) := by
  induction l generalizing acc with
  | nil => left; rfl
  | cons e rest ih =>
    obtain ⟨t, m⟩ := acc
    simp only [scanEnemies]
    split
    · right
      rcases ih (some e, hypot (e.pos.x - pos.x) (e.pos.y - pos.y)) with h | ⟨e', he', h1, h2⟩
      · exact ⟨e, List.mem_cons_self e rest, by rw [h], by rw [h]⟩
      · exact ⟨e', List.mem_cons_of_mem _ he', h1, h2⟩
    · rcases ih (t, m) with h | ⟨e', he', h1, h2⟩
      · left; exact h
      · right; exact ⟨e', List.mem_cons_of_mem _ he', h1, h2⟩

/-- When every enemy is at or beyond the accumulator distance, the scan
returns the accumulator unchanged. -/
lemma scanEnemies_far (pos : Vec2) (t : Option EnemyS) (m : ℝ) :
    ∀ l : List EnemyS,
      (∀ e ∈ l, m ≤ hypot (e.pos.x - pos.x) (e.pos.y - pos.y)) →
      scanEnemies pos l (t, m) = (t, m)
  | [], _ => rfl
  | e :: rest, h => by
    simp only [scanEnemies]
    rw [if_neg (not_lt.mpr (h e (List.mem_cons_self e rest)))]
    exact scanEnemies_far pos t m rest (fun e' he' => h e' (List.mem_cons_of_mem _ he'))

/-- C10: in a player's per-tick update, if some enemy is strictly within
1200 units, the facing rotation becomes the angle toward a nearest such
enemy; otherwise a held nonzero movement force sets the rotation to the
movement direction; otherwise the rotation is unchanged. The rotation is
set before any shot: the bullets a player update emits are exactly those
of the shooting step applied to the player with the aimed rotation. -/
theorem aimRotation_spec (M : MathImpl) (enemies : List EnemyS) (p : PlayerS)
    (force : Vec2) :
    ((∃ e ∈ enemies, hypot (e.pos.x - p.pos.x) (e.pos.y - p.pos.y) < 1200) →
      ∃ e ∈ enemies, hypot (e.pos.x - p.pos.x) (e.pos.y - p.pos.y) < 1200 ∧
        (∀ e' ∈ enemies, hypot (e.pos.x - p.pos.x) (e.pos.y - p.pos.y) ≤
          hypot (e'.pos.x - p.pos.x) (e'.pos.y - p.pos.y)) ∧
        aimRotation M enemies p force =
          M.atan2F (e.pos.y - p.pos.y) (e.pos.x - p.pos.x)) ∧
    ((∀ e ∈ enemies, 1200 ≤ hypot (e.pos.x - p.pos.x) (e.pos.y - p.pos.y)) →
      (force.x ≠ 0 ∨ force.y ≠ 0) →
      aimRotation M enemies p force = M.atan2F force.y force.x) ∧
    ((∀ e ∈ enemies, 1200 ≤ hypot (e.pos.x - p.pos.x) (e.pos.y - p.pos.y)) →
      force.x = 0 → force.y = 0 → aimRotation M enemies p force = p.rotation) ∧
    (∀ (keys : String → Bool) (i : ℕ), p.dead = false →
      (stepPlayer M keys enemies i p).2.1 =
        (shootStep M keys i
          { p with rotation := aimRotation M enemies p (moveForce keys p) }).2.1) := by
  refine ⟨?_, ?_, ?_, ?_⟩
  · rintro ⟨e0, he0, hd0⟩
    have hle := scanEnemies_le p.pos enemies (none, 1200)
    rcases scanEnemies_attained p.pos enemies (none, 1200) with h | ⟨e, he, h1, h2⟩
    · exfalso
      have h2' := hle.2 e0 he0
      rw [h] at h2'
      exact absurd hd0 (not_lt.mpr h2')
    · refine ⟨e, he, ?_, ?_, ?_⟩
      · rw [← h2]; exact lt_of_le_of_lt (hle.2 e0 he0) hd0
      · intro e' he'; rw [← h2]; exact hle.2 e' he'
      · unfold aimRotation aimTarget
        rw [h1]
  · intro hfar hforce
    unfold aimRotation aimTarget
    rw [scanEnemies_far p.pos none 1200 enemies hfar]
    have : |force.x| > 0 ∨ |force.y| > 0 := by
      rcases hforce with h | h
      · left; exact abs_pos.mpr h
      · right; exact abs_pos.mpr h
    simp only [if_pos this]
  · intro hfar hx hy
    unfold aimRotation aimTarget
    rw [scanEnemies_far p.pos none 1200 enemies hfar]
    rw [if_neg (by rw [hx, hy]; simp)]
  · intro keys i hdead
    simp only [stepPlayer, hdead, Bool.false_eq_true, if_false]

/-- C10 witness: a single walker 100 units to the right of the sniper
player is strictly within 1200 units, so the aim conclusion applies. -/
theorem aimRotation_spec_witness :
    (∃ e ∈ [wEnemy], hypot (e.pos.x - wSniper.pos.x) (e.pos.y - wSniper.pos.y) < 1200) ∧
    (∃ e ∈ [wEnemy], hypot (e.pos.x - wSniper.pos.x) (e.pos.y - wSniper.pos.y) < 1200 ∧
      (∀ e' ∈ [wEnemy], hypot (e.pos.x - wSniper.pos.x) (e.pos.y - wSniper.pos.y) ≤
        hypot (e'.pos.x - wSniper.pos.x) (e'.pos.y - wSniper.pos.y)) ∧
      aimRotation trivMath [wEnemy] wSniper ⟨0, 0⟩ =
        trivMath.atan2F (wEnemy.pos.y - wSniper.pos.y) (wEnemy.pos.x - wSniper.pos.x)) := by
  have hd : hypot (wEnemy.pos.x - wSniper.pos.x) (wEnemy.pos.y - wSniper.pos.y) < 1200 := by
    simp only [wEnemy, wSniper, hypot]
    rw [show ((100 : ℝ) - 0) * (100 - 0) + (0 - 0) * (0 - 0) = 100 ^ 2 by norm_num]
    rw [Real.sqrt_sq (by norm_num : (0 : ℝ) ≤ 100)]
    norm_num
  have hex : ∃ e ∈ [wEnemy],
      hypot (e.pos.x - wSniper.pos.x) (e.pos.y - wSniper.pos.y) < 1200 :=
    ⟨wEnemy, List.mem_singleton.mpr rfl, hd⟩
  exact ⟨hex, by
    obtain ⟨e, he, h1, h2, h3⟩ := (aimRotation_spec trivMath [wEnemy] wSniper ⟨0, 0⟩).1 hex
    have heq : e = wEnemy := List.mem_singleton.mp he
    subst heq
    exact ⟨wEnemy, List.mem_singleton.mpr rfl, h1, h2, h3⟩⟩

/-! ## C8 — building collision resolution -/

/-- The norm of the origin vector vanishes. -/
lemma hypot_zero : hypot 0 0 = 0 := by
  rw [hypot, show (0 : ℝ) * 0 + 0 * 0 = 0 by norm_num, Real.sqrt_zero]

/-- Scaling both components scales the norm by the absolute factor. -/
lemma hypot_smul (k x y : ℝ) : hypot (k * x) (k * y) = |k| * hypot x y := by
  rw [hypot, hypot, show k * x * (k * x) + k * y * (k * y) = k ^ 2 * (x * x + y * y) by ring,
    Real.sqrt_mul (sq_nonneg k), Real.sqrt_sq_eq_abs]

/-- One-dimensional clamp stability: pushing a point away from its clamp
along the (positively scaled) clamp-to-point offset does not move the
clamp. -/
lemma clamp1_stable (lo hi x k : ℝ) (hlh : lo ≤ hi) (hk : 0 < k) :
    max lo (min (max lo (min x hi) + k * (x - max lo (min x hi))) hi) =
      max lo (min x hi) := by
  rcases le_or_lt x hi with hxh | hxh
  · rcases le_or_lt lo x with hlx | hlx
    · have hc : max lo (min x hi) = x := by rw [min_eq_left hxh, max_eq_right hlx]
      rw [hc, sub_self, mul_zero, add_zero, min_eq_left hxh, max_eq_right hlx]
    · have hc : max lo (min x hi) = lo := by
        rw [min_eq_left hxh]; exact max_eq_left (le_of_lt hlx)
      rw [hc]
      have hlt : lo + k * (x - lo) < lo := by nlinarith
      rw [min_eq_left (le_trans (le_of_lt hlt) hlh), max_eq_left (le_of_lt hlt)]
  · have hc : max lo (min x hi) = hi := by
      rw [min_eq_right (le_of_lt hxh)]; exact max_eq_right hlh
    rw [hc]
    have hlt : hi < hi + k * (x - hi) := by nlinarith
    rw [min_eq_right (le_of_lt hlt), max_eq_right hlh]

/-- Componentwise equality of 2D vectors. -/
lemma Vec2.ext' (a b : Vec2) (hx : a.x = b.x) (hy : a.y = b.y) : a = b := by
  cases a; cases b; cases hx; cases hy; rfl

/-- C8 (amended): for an entity whose center lies strictly outside a
building rectangle (positive distance to the nearest boundary point) and
strictly overlapping it (that distance below the radius), the resolver
scales both velocity components by 0.5 and pushes the entity along the
boundary-to-entity vector to exactly its radius away from the same
boundary point — in particular strictly outside the rectangle. The two
trigonometric hypotheses record `cos (atan2 dy dx) = dx / hypot dx dy` and
its sine counterpart, true of the real functions. -/
theorem resolveObstacle_building_spec (M : MathImpl) (env : EnvObj)
    (pos vel : Vec2) (radius : ℝ)
    (hk : env.kind = EnvKind.building)
    (hw : 0 ≤ env.size.x) (hh : 0 ≤ env.size.y)
    (h0 : 0 < rectDist env pos) (hover : rectDist env pos < radius)
    (hcos : M.cosF (M.atan2F (pos.y - (clampToRect env pos).y)
        (pos.x - (clampToRect env pos).x)) =
      (pos.x - (clampToRect env pos).x) / rectDist env pos)
    (hsin : M.sinF (M.atan2F (pos.y - (clampToRect env pos).y)
        (pos.x - (clampToRect env pos).x)) =
      (pos.y - (clampToRect env pos).y) / rectDist env pos) :
    (resolveObstacle M env pos vel radius).2 = ⟨vel.x * 0.5, vel.y * 0.5⟩ ∧
    (resolveObstacle M env pos vel radius).1.x - (clampToRect env pos).x =
      (radius / rectDist env pos) * (pos.x - (clampToRect env pos).x) ∧
    (resolveObstacle M env pos vel radius).1.y - (clampToRect env pos).y =
      (radius / rectDist env pos) * (pos.y - (clampToRect env pos).y) ∧
    clampToRect env (resolveObstacle M env pos vel radius).1 =
      clampToRect env pos ∧
    rectDist env (resolveObstacle M env pos vel radius).1 = radius ∧
    ¬ inRect env (resolveObstacle M env pos vel radius).1 := by
  have hd0 : rectDist env pos ≠ 0 := ne_of_gt h0
  have hres : resolveObstacle M env pos vel radius =
      (⟨pos.x + M.cosF (M.atan2F (pos.y - (clampToRect env pos).y)
          (pos.x - (clampToRect env pos).x)) * (radius - rectDist env pos),
        pos.y + M.sinF (M.atan2F (pos.y - (clampToRect env pos).y)
          (pos.x - (clampToRect env pos).x)) * (radius - rectDist env pos)⟩,
       ⟨vel.x * 0.5, vel.y * 0.5⟩) := by
    obtain ⟨eid, ekind, epos, esize, ecolor⟩ := env
    cases hk
    simp only [resolveObstacle, rectDist, clampToRect]
    rw [if_pos]
    exact hover
  have hxeq : (resolveObstacle M env pos vel radius).1.x - (clampToRect env pos).x =
      (radius / rectDist env pos) * (pos.x - (clampToRect env pos).x) := by
    rw [hres, hcos]
    field_simp
    ring
  have hyeq : (resolveObstacle M env pos vel radius).1.y - (clampToRect env pos).y =
      (radius / rectDist env pos) * (pos.y - (clampToRect env pos).y) := by
    rw [hres, hsin]
    field_simp
    ring
  have hkpos : 0 < radius / rectDist env pos := div_pos (lt_trans h0 hover) h0
  have hx1 : (resolveObstacle M env pos vel radius).1.x =
      (clampToRect env pos).x +
        (radius / rectDist env pos) * (pos.x - (clampToRect env pos).x) := by
    linarith [hxeq]
  have hy1 : (resolveObstacle M env pos vel radius).1.y =
      (clampToRect env pos).y +
        (radius / rectDist env pos) * (pos.y - (clampToRect env pos).y) := by
    linarith [hyeq]
  have hlhx : env.pos.x - env.size.x / 2 ≤ env.pos.x + env.size.x / 2 := by linarith
  have hlhy : env.pos.y - env.size.y / 2 ≤ env.pos.y + env.size.y / 2 := by linarith
  have hclamp : clampToRect env (resolveObstacle M env pos vel radius).1 =
      clampToRect env pos := by
    have hxs := clamp1_stable (env.pos.x - env.size.x / 2) (env.pos.x + env.size.x / 2)
      pos.x (radius / rectDist env pos) hlhx hkpos
    have hys := clamp1_stable (env.pos.y - env.size.y / 2) (env.pos.y + env.size.y / 2)
      pos.y (radius / rectDist env pos) hlhy hkpos
    apply Vec2.ext'
    · simp only [clampToRect]
      rw [hx1]
      simp only [clampToRect]
      exact hxs
    · simp only [clampToRect]
      rw [hy1]
      simp only [clampToRect]
      exact hys
  have hdist : rectDist env (resolveObstacle M env pos vel radius).1 = radius := by
    rw [rectDist, hclamp, hxeq, hyeq, hypot_smul, abs_of_pos hkpos]
    rw [show hypot (pos.x - (clampToRect env pos).x) (pos.y - (clampToRect env pos).y) =
      rectDist env pos from rfl]
    exact div_mul_cancel₀ radius hd0
  refine ⟨by rw [hres], hxeq, hyeq, hclamp, hdist, ?_⟩
  intro hin
  obtain ⟨hin1, hin2, hin3, hin4⟩ := hin
  have hself : clampToRect env (resolveObstacle M env pos vel radius).1 =
      (resolveObstacle M env pos vel radius).1 := by
    apply Vec2.ext'
    · simp only [clampToRect]
      rw [min_eq_left hin2, max_eq_right hin1]
    · simp only [clampToRect]
      rw [min_eq_left hin4, max_eq_right hin3]
  have hzero : rectDist env (resolveObstacle M env pos vel radius).1 = 0 := by
    rw [rectDist, hself, sub_self, sub_self, hypot_zero]
  rw [hdist] at hzero
  linarith [lt_trans h0 hover]

/-- C8 counterexample: an entity of radius 20 whose center coincides with
the center of a wide building strictly overlaps it (nearest boundary point
at distance 0 < 20), yet the resolver — pushing along `atan2(0,0) = 0`,
i.e. by the radius in the +x direction — leaves it inside the rectangle
and still overlapping; only the velocity damping happens as claimed. -/
theorem resolveObstacle_building_counterexample :
    rectDist wBuildingWide ⟨0, 0⟩ < 20 ∧
    (resolveObstacle realMath wBuildingWide ⟨0, 0⟩ ⟨3, 4⟩ 20).2 = ⟨3 * 0.5, 4 * 0.5⟩ ∧
    inRect wBuildingWide (resolveObstacle realMath wBuildingWide ⟨0, 0⟩ ⟨3, 4⟩ 20).1 ∧
    rectDist wBuildingWide (resolveObstacle realMath wBuildingWide ⟨0, 0⟩ ⟨3, 4⟩ 20).1 < 20 := by
  have hclamp0 : clampToRect wBuildingWide ⟨0, 0⟩ = ⟨0, 0⟩ := by
    apply Vec2.ext' <;> simp only [clampToRect, wBuildingWide] <;>
      rw [min_eq_left (by norm_num), max_eq_right (by norm_num)]
  have h0eval : rectDist wBuildingWide ⟨0, 0⟩ = 0 := by
    rw [rectDist, hclamp0]
    simp [hypot_zero]
  have harg : realMath.atan2F 0 0 = 0 := by
    show Complex.arg ⟨0, 0⟩ = 0
    rw [show (⟨0, 0⟩ : ℂ) = 0 from Complex.ext (by norm_num) (by norm_num)]
    exact Complex.arg_zero
  have hres : resolveObstacle realMath wBuildingWide ⟨0, 0⟩ ⟨3, 4⟩ 20 =
      (⟨20, 0⟩, ⟨3 * 0.5, 4 * 0.5⟩) := by
    have hcond : hypot ((⟨0, 0⟩ : Vec2).x - (clampToRect wBuildingWide ⟨0, 0⟩).x)
        ((⟨0, 0⟩ : Vec2).y - (clampToRect wBuildingWide ⟨0, 0⟩).y) < 20 := by
      rw [hclamp0]
      simp [hypot_zero]
    simp only [resolveObstacle, show wBuildingWide.kind = EnvKind.building from rfl]
    rw [if_pos hcond]
    rw [hclamp0]
    simp only [show ((⟨0, 0⟩ : Vec2)).x = 0 from rfl, show ((⟨0, 0⟩ : Vec2)).y = 0 from rfl]
    rw [show (0 : ℝ) - 0 = 0 by norm_num, harg, hypot_zero]
    rw [show realMath.cosF 0 = 1 from Real.cos_zero,
      show realMath.sinF 0 = 0 from Real.sin_zero]
    norm_num [Prod.ext_iff, Vec2.mk.injEq]
  refine ⟨by rw [h0eval]; norm_num, by rw [hres], ?_, ?_⟩
  · rw [hres]
    simp only [inRect, wBuildingWide]
    norm_num
  · have hclamp20 : clampToRect wBuildingWide ⟨20, 0⟩ = ⟨20, 0⟩ := by
      apply Vec2.ext' <;> simp only [clampToRect, wBuildingWide] <;>
        rw [min_eq_left (by norm_num), max_eq_right (by norm_num)]
    rw [hres]
    show rectDist wBuildingWide ⟨20, 0⟩ < 20
    rw [rectDist, hclamp20]
    simp [hypot_zero]

/-- C8 witness: an entity of radius 20 three units right of the building's
right edge, under the genuine real trigonometric functions. -/
theorem resolveObstacle_building_spec_witness :
    (0 < rectDist wBuilding ⟨63, 0⟩ ∧ rectDist wBuilding ⟨63, 0⟩ < 20) ∧
    ((resolveObstacle realMath wBuilding ⟨63, 0⟩ ⟨2, 2⟩ 20).2 = ⟨2 * 0.5, 2 * 0.5⟩ ∧
      rectDist wBuilding (resolveObstacle realMath wBuilding ⟨63, 0⟩ ⟨2, 2⟩ 20).1 = 20 ∧
      ¬ inRect wBuilding (resolveObstacle realMath wBuilding ⟨63, 0⟩ ⟨2, 2⟩ 20).1) := by
  have hclamp63 : clampToRect wBuilding ⟨63, 0⟩ = ⟨60, 0⟩ := by
    apply Vec2.ext'
    · simp only [clampToRect, wBuilding]
      rw [min_eq_right (by norm_num), max_eq_right (by norm_num)]
      norm_num
    · simp only [clampToRect, wBuilding]
      rw [min_eq_left (by norm_num), max_eq_right (by norm_num)]
  have hdist63 : rectDist wBuilding ⟨63, 0⟩ = 3 := by
    rw [rectDist, hclamp63]
    show hypot ((63 : ℝ) - 60) ((0 : ℝ) - 0) = 3
    rw [show (63 : ℝ) - 60 = 3 by norm_num, show (0 : ℝ) - 0 = 0 by norm_num, hypot,
      show (3 : ℝ) * 3 + 0 * 0 = 3 ^ 2 by norm_num]
    exact Real.sqrt_sq (by norm_num)
  have hz : (⟨(63 : ℝ) - 60, (0 : ℝ) - 0⟩ : ℂ) ≠ 0 := by
    intro h
    have := congrArg Complex.re h
    norm_num at this
  have habs : Complex.abs ⟨(63 : ℝ) - 60, (0 : ℝ) - 0⟩ = 3 := by
    rw [Complex.abs_apply, Complex.normSq_mk,
      show ((63 : ℝ) - 60) * ((63 : ℝ) - 60) + ((0 : ℝ) - 0) * ((0 : ℝ) - 0) = 3 ^ 2 by norm_num]
    exact Real.sqrt_sq (by norm_num)
  have hcos : realMath.cosF (realMath.atan2F ((⟨63, 0⟩ : Vec2).y - (clampToRect wBuilding ⟨63, 0⟩).y)
      ((⟨63, 0⟩ : Vec2).x - (clampToRect wBuilding ⟨63, 0⟩).x)) =
      ((⟨63, 0⟩ : Vec2).x - (clampToRect wBuilding ⟨63, 0⟩).x) / rectDist wBuilding ⟨63, 0⟩ := by
    rw [hdist63, hclamp63]
    show Real.cos (Complex.arg ⟨(63 : ℝ) - 60, (0 : ℝ) - 0⟩) = ((63 : ℝ) - 60) / 3
    rw [Complex.cos_arg hz, habs]
  have hsin : realMath.sinF (realMath.atan2F ((⟨63, 0⟩ : Vec2).y - (clampToRect wBuilding ⟨63, 0⟩).y)
      ((⟨63, 0⟩ : Vec2).x - (clampToRect wBuilding ⟨63, 0⟩).x)) =
      ((⟨63, 0⟩ : Vec2).y - (clampToRect wBuilding ⟨63, 0⟩).y) / rectDist wBuilding ⟨63, 0⟩ := by
    rw [hdist63, hclamp63]
    show Real.sin (Complex.arg ⟨(63 : ℝ) - 60, (0 : ℝ) - 0⟩) = ((0 : ℝ) - 0) / 3
    rw [Complex.sin_arg, habs]
  have h0 : 0 < rectDist wBuilding ⟨63, 0⟩ := by rw [hdist63]; norm_num
  have hover : rectDist wBuilding ⟨63, 0⟩ < 20 := by rw [hdist63]; norm_num
  obtain ⟨r1, _, _, _, r5, r6⟩ := resolveObstacle_building_spec realMath wBuilding ⟨63, 0⟩ ⟨2, 2⟩ 20
    rfl (by norm_num [wBuilding]) (by norm_num [wBuilding]) h0 hover hcos hsin
  exact ⟨⟨h0, hover⟩, r1, r5, r6⟩

/-! ## C3 — projectile lifetime discipline -/

/-- Homing only steers the velocity; the lifetime is untouched. -/
lemma homing_lifeTime (M : MathImpl) (es : List EnemyS) (b : Bullet) :
    (homing M es b).lifeTime = b.lifeTime := by
  unfold homing
  cases homingTarget es b.pos <;> rfl

/-- Each spawned particle burst has exactly the requested size. -/
lemma spawnParticle_length (M : MathImpl) (pos : Vec2) (color : ColorT)
    (ptype : ParticleKind) :
    ∀ (k : ℕ) (i : ℕ), (spawnParticle M pos color k ptype i).1.length = k
  | 0, _ => rfl
  | k + 1, i => by
    simp only [spawnParticle, List.length_cons]
    rw [spawnParticle_length M pos color ptype k]

/-- A crate pass that resolved no hit left everything unchanged. -/
lemma hitCrates_not_hit (M : MathImpl) (b : Bullet) (i : ℕ) :
    ∀ cs : List Crate, (hitCrates M b i cs).hit = false →
      hitCrates M b i cs = ⟨cs, false, [], [], i⟩
  | [], _ => rfl
  | c :: rest, h => by
    by_cases hd : c.dead = true
    · have hrw : hitCrates M b i (c :: rest) =
          { hitCrates M b i rest with crates := c :: (hitCrates M b i rest).crates } := by
        simp only [hitCrates]
        rw [if_pos hd]
      rw [hrw] at h ⊢
      rw [hitCrates_not_hit M b i rest h]
    · by_cases hr : hypot (b.pos.x - c.pos.x) (b.pos.y - c.pos.y) < c.radius + b.radius
      · exfalso
        have hht : (hitCrates M b i (c :: rest)).hit = true := by
          simp only [hitCrates]
          rw [if_neg hd, if_pos hr]
          split <;> rfl
        rw [hht] at h
        cases h
      · have hrw : hitCrates M b i (c :: rest) =
            { hitCrates M b i rest with crates := c :: (hitCrates M b i rest).crates } := by
          simp only [hitCrates]
          rw [if_neg hd, if_neg hr]
        rw [hrw] at h ⊢
        rw [hitCrates_not_hit M b i rest h]

/-- An enemy pass that resolved no hit left everything unchanged (and in
particular killed nothing). -/
lemma hitEnemies_not_hit (M : MathImpl) (b : Bullet) (i : ℕ) :
    ∀ es : List EnemyS, (hitEnemies M b i es).hit = false →
      hitEnemies M b i es = ⟨es, false, false, [], i⟩
  | [], _ => rfl
  | t :: rest, h => by
    by_cases hd : t.dead = true
    · have hrw : hitEnemies M b i (t :: rest) =
          { hitEnemies M b i rest with enemies := t :: (hitEnemies M b i rest).enemies } := by
        simp only [hitEnemies]
        rw [if_pos hd]
      rw [hrw] at h ⊢
      rw [hitEnemies_not_hit M b i rest h]
    · by_cases hr : hypot (b.pos.x - t.pos.x) (b.pos.y - t.pos.y) < t.radius + b.radius
      · exfalso
        have hht : (hitEnemies M b i (t :: rest)).hit = true := by
          simp only [hitEnemies]
          rw [if_neg hd, if_pos hr]
          split <;> rfl
        rw [hht] at h
        cases h
      · have hrw : hitEnemies M b i (t :: rest) =
            { hitEnemies M b i rest with enemies := t :: (hitEnemies M b i rest).enemies } := by
          simp only [hitEnemies]
          rw [if_neg hd, if_neg hr]
        rw [hrw] at h ⊢
        rw [hitEnemies_not_hit M b i rest h]

/-- A player pass that resolved no hit left everything unchanged. -/
lemma hitPlayers_not_hit (M : MathImpl) (b : Bullet) (i : ℕ) :
    ∀ ps : List PlayerS, (hitPlayers M b i ps).hit = false →
      hitPlayers M b i ps = ⟨ps, false, [], i⟩
  | [], _ => rfl
  | t :: rest, h => by
    by_cases hd : t.dead = true
    · have hrw : hitPlayers M b i (t :: rest) =
          { hitPlayers M b i rest with players := t :: (hitPlayers M b i rest).players } := by
        simp only [hitPlayers]
        rw [if_pos hd]
      rw [hrw] at h ⊢
      rw [hitPlayers_not_hit M b i rest h]
    · by_cases hr : hypot (b.pos.x - t.pos.x) (b.pos.y - t.pos.y) < t.radius + b.radius
      · exfalso
        have hht : (hitPlayers M b i (t :: rest)).hit = true := by
          simp only [hitPlayers]
          rw [if_neg hd, if_pos hr]
          split <;> rfl
        rw [hht] at h
        cases h
      · have hrw : hitPlayers M b i (t :: rest) =
            { hitPlayers M b i rest with players := t :: (hitPlayers M b i rest).players } := by
          simp only [hitPlayers]
          rw [if_neg hd, if_neg hr]
        rw [hrw] at h ⊢
        rw [hitPlayers_not_hit M b i rest h]

/-- Moving a bullet decrements its lifetime by exactly one. -/
lemma moveBullet_lifeTime (M : MathImpl) (es : List EnemyS) (b : Bullet) :
    (moveBullet M es b).lifeTime = b.lifeTime - 1 := by
  simp only [moveBullet]
  split
  · rw [homing_lifeTime]
  · rfl

/-- The pre stage either zeroes the lifetime (building wall) or performs
exactly the decrement and leaves the context untouched. -/
lemma stepBulletPre_cases (M : MathImpl) (env : List EnvObj) (ctx : BulletCtx)
    (b : Bullet) :
    (stepBulletPre M env ctx b).1.lifeTime = 0 ∨
    ((stepBulletPre M env ctx b).1.lifeTime = b.lifeTime - 1 ∧
      (stepBulletPre M env ctx b).2 = ctx) := by
  simp only [stepBulletPre]
  split
  · left; rfl
  · right
    exact ⟨moveBullet_lifeTime M ctx.enemies b, rfl⟩

/-- The pre stage never touches crates, enemies, players or pickups. -/
lemma stepBulletPre_frame (M : MathImpl) (env : List EnvObj) (ctx : BulletCtx)
    (b : Bullet) :
    (stepBulletPre M env ctx b).2.crates = ctx.crates ∧
    (stepBulletPre M env ctx b).2.enemies = ctx.enemies ∧
    (stepBulletPre M env ctx b).2.players = ctx.players ∧
    (stepBulletPre M env ctx b).2.pickups = ctx.pickups := by
  simp only [stepBulletPre]
  split <;> exact ⟨rfl, rfl, rfl, rfl⟩

/-- The hit stage either resolves no collision — returning the bullet and
context unchanged — or zeroes the bullet's lifetime. -/
lemma stepBulletHits_cases (M : MathImpl) (ids : List String) (ctx : BulletCtx)
    (b : Bullet) :
    stepBulletHits M ids ctx b = (b, ctx) ∨
    (stepBulletHits M ids ctx b).1.lifeTime = 0 := by
  simp only [stepBulletHits]
  by_cases hown : b.ownerId.startsWith ("p") = true
  · rw [if_pos hown]
    by_cases hcr : (hitCrates M b ctx.randIdx ctx.crates).hit = true
    · right
      rw [hcr, if_pos rfl]
      rw [if_neg (by simp : ¬(({ b with lifeTime := 0 } : Bullet).lifeTime > 0))]
    · have hcrf : (hitCrates M b ctx.randIdx ctx.crates).hit = false := by
        simpa using hcr
      rw [hitCrates_not_hit M b ctx.randIdx ctx.crates hcrf]
      simp only [List.append_nil, Bool.false_eq_true, if_false]
      by_cases hbl : b.lifeTime > 0
      · rw [if_pos hbl]
        by_cases hen : (hitEnemies M b ctx.randIdx ctx.enemies).hit = true
        · right
          rw [hen, if_pos rfl]
        · have henf : (hitEnemies M b ctx.randIdx ctx.enemies).hit = false := by
            simpa using hen
          rw [hitEnemies_not_hit M b ctx.randIdx ctx.enemies henf]
          simp only [List.append_nil, Bool.false_eq_true, if_false]
          left
          trivial
      · rw [if_neg hbl]
        left
        rfl
  · rw [if_neg hown]
    by_cases hpl : (hitPlayers M b ctx.randIdx ctx.players).hit = true
    · right
      rw [hpl, if_pos rfl]
    · have hplf : (hitPlayers M b ctx.randIdx ctx.players).hit = false := by
        simpa using hpl
      rw [hitPlayers_not_hit M b ctx.randIdx ctx.players hplf]
      simp only [List.append_nil, Bool.false_eq_true, if_false]
      left
      trivial

/-- C3 (amended): per bullet per tick, the lifetime either drops by
exactly 1 or is zeroed by a resolved collision; a bullet that survives the
tick took exactly the decrement and had no effect whatsoever on the
context; a bullet whose decrement already exhausts its lifetime takes part
in no crate or entity collision (crates, enemies, players and pickups are
untouched — the building-wall check, which precedes the lifetime guard,
may still emit smoke particles); and the purge pass drops exactly the
bullets with non-positive lifetime. -/
theorem stepBullet_lifetime (M : MathImpl) (ids : List String)
    (env : List EnvObj) (ctx : BulletCtx) (b : Bullet) :
    ((stepBullet M ids env ctx b).1.lifeTime = b.lifeTime - 1 ∨
      (stepBullet M ids env ctx b).1.lifeTime = 0) ∧
    (0 < (stepBullet M ids env ctx b).1.lifeTime →
      (stepBullet M ids env ctx b).1.lifeTime = b.lifeTime - 1 ∧
      (stepBullet M ids env ctx b).2 = ctx) ∧
    (b.lifeTime - 1 ≤ 0 →
      (stepBullet M ids env ctx b).2.crates = ctx.crates ∧
      (stepBullet M ids env ctx b).2.enemies = ctx.enemies ∧
      (stepBullet M ids env ctx b).2.players = ctx.players ∧
      (stepBullet M ids env ctx b).2.pickups = ctx.pickups) ∧
    (∀ s : GState, (purgePhase s).bullets =
      s.bullets.filter (fun bb => decide (bb.lifeTime > 0))) := by
  have hstep : stepBullet M ids env ctx b =
      if (stepBulletPre M env ctx b).1.lifeTime ≤ 0 then stepBulletPre M env ctx b
      else stepBulletHits M ids (stepBulletPre M env ctx b).2 (stepBulletPre M env ctx b).1 := rfl
  have hpre := stepBulletPre_cases M env ctx b
  have hfr := stepBulletPre_frame M env ctx b
  refine ⟨?_, ?_, ?_, fun s => rfl⟩
  · rw [hstep]
    split
    · rcases hpre with h | ⟨h, -⟩
      · right; exact h
      · left; exact h
    · rcases stepBulletHits_cases M ids (stepBulletPre M env ctx b).2
        (stepBulletPre M env ctx b).1 with h | h
      · rw [h]
        rcases hpre with h' | ⟨h', -⟩
        · right; exact h'
        · left; exact h'
      · right; exact h
  · intro hpos
    rw [hstep] at hpos ⊢
    by_cases hguard : (stepBulletPre M env ctx b).1.lifeTime ≤ 0
    · rw [if_pos hguard] at hpos
      omega
    · rw [if_neg hguard] at hpos ⊢
      rcases stepBulletHits_cases M ids (stepBulletPre M env ctx b).2
        (stepBulletPre M env ctx b).1 with h | h
      · rw [h] at hpos ⊢
        rcases hpre with h' | ⟨h', h2⟩
        · omega
        · exact ⟨h', h2⟩
      · omega
  · intro hle
    have hguard : (stepBulletPre M env ctx b).1.lifeTime ≤ 0 := by
      rcases hpre with h | ⟨h, -⟩ <;> omega
    rw [hstep, if_pos hguard]
    exact hfr

/-- On the empty witness context (no crates, enemies or players), the hit
stage resolves nothing for any bullet. -/
lemma stepBulletHits_wCtx (M : MathImpl) (ids : List String) (b : Bullet) :
    stepBulletHits M ids wCtx b = (b, wCtx) := by
  simp only [stepBulletHits]
  split
  · rw [show hitCrates M b wCtx.randIdx wCtx.crates =
      ⟨wCtx.crates, false, [], [], wCtx.randIdx⟩ from rfl]
    simp only [Bool.false_eq_true, if_false, List.append_nil]
    split
    · rw [show hitEnemies M b wCtx.randIdx wCtx.enemies =
        ⟨wCtx.enemies, false, false, [], wCtx.randIdx⟩ from rfl]
      simp only [Bool.false_eq_true, if_false, List.append_nil]
    · rfl
  · rw [show hitPlayers M b wCtx.randIdx wCtx.players =
      ⟨wCtx.players, false, [], wCtx.randIdx⟩ from rfl]
    simp only [Bool.false_eq_true, if_false, List.append_nil]

/-- C3 counterexample for the claim as stated: an ak47 bullet with one
tick of lifetime left, sitting inside a building. Its decrement makes the
lifetime ≤ 0, yet the building-wall check (which precedes the lifetime
guard) still resolves a collision against it, emitting 5 smoke particles —
a collision check in which a projectile with lifetime ≤ 0 participates. -/
theorem stepBullet_counterexample :
    wBulletLast.lifeTime - 1 ≤ 0 ∧
    (stepBullet trivMath [] [wBuilding] wCtx wBulletLast).2.particles.length = 5 := by
  refine ⟨by decide, ?_⟩
  have hmove : moveBullet trivMath wCtx.enemies wBulletLast =
      { wBulletLast with
        pos := ⟨wBulletLast.pos.x + wBulletLast.vel.x, wBulletLast.pos.y + wBulletLast.vel.y⟩
        lifeTime := wBulletLast.lifeTime - 1 } := by
    simp only [moveBullet]
    rw [if_neg (by decide : ¬(wBulletLast.bulletType = BulletKind.sniper))]
  have hfind : bulletHitsBuilding wBuilding
      (moveBullet trivMath wCtx.enemies wBulletLast).pos = true := by
    rw [hmove]
    simp only [bulletHitsBuilding, decide_eq_true_eq, wBuilding, wBulletLast, wBullet]
    norm_num
  have hsome : (List.find? (fun o => bulletHitsBuilding o
      (moveBullet trivMath wCtx.enemies wBulletLast).pos) [wBuilding]).isSome = true := by
    simp only [List.find?, hfind]
    rfl
  have hl : (stepBulletPre trivMath [wBuilding] wCtx wBulletLast).1.lifeTime = 0 := by
    simp only [stepBulletPre]
    rw [if_pos hsome]
  have hstep : stepBullet trivMath [] [wBuilding] wCtx wBulletLast =
      stepBulletPre trivMath [wBuilding] wCtx wBulletLast := by
    rw [show stepBullet trivMath [] [wBuilding] wCtx wBulletLast =
        if (stepBulletPre trivMath [wBuilding] wCtx wBulletLast).1.lifeTime ≤ 0
        then stepBulletPre trivMath [wBuilding] wCtx wBulletLast
        else stepBulletHits trivMath []
          (stepBulletPre trivMath [wBuilding] wCtx wBulletLast).2
          (stepBulletPre trivMath [wBuilding] wCtx wBulletLast).1 from rfl]
    rw [if_pos hl.le]
  have hparts : (stepBulletPre trivMath [wBuilding] wCtx wBulletLast).2.particles =
      wCtx.particles ++ (spawnParticle trivMath
        (moveBullet trivMath wCtx.enemies wBulletLast).pos
        (.lit ("#555")) 5 .smoke wCtx.randIdx).1 := by
    simp only [stepBulletPre]
    rw [if_pos hsome]
  rw [hstep, hparts, show wCtx.particles = [] from rfl, List.nil_append,
    spawnParticle_length]

/-- C3 witness: an ak47 bullet with 5 ticks left, no obstacles and empty
registries, survives the tick with lifetime 4 and an untouched context. -/
theorem stepBullet_lifetime_witness :
    0 < (stepBullet trivMath [] [] wCtx wBullet).1.lifeTime ∧
    ((stepBullet trivMath [] [] wCtx wBullet).1.lifeTime = wBullet.lifeTime - 1 ∧
      (stepBullet trivMath [] [] wCtx wBullet).2 = wCtx) := by
  have hpre : stepBulletPre trivMath [] wCtx wBullet =
      (moveBullet trivMath wCtx.enemies wBullet, wCtx) := by
    simp only [stepBulletPre]
    rw [if_neg (by simp : ¬((List.find? (fun o => bulletHitsBuilding o
      (moveBullet trivMath wCtx.enemies wBullet).pos) ([] : List EnvObj)).isSome = true))]
  have hmblife : (moveBullet trivMath wCtx.enemies wBullet).lifeTime = 4 := by
    rw [moveBullet_lifeTime]
    decide
  have hstep : stepBullet trivMath [] [] wCtx wBullet =
      (moveBullet trivMath wCtx.enemies wBullet, wCtx) := by
    rw [show stepBullet trivMath [] [] wCtx wBullet =
        if (stepBulletPre trivMath [] wCtx wBullet).1.lifeTime ≤ 0
        then stepBulletPre trivMath [] wCtx wBullet
        else stepBulletHits trivMath [] (stepBulletPre trivMath [] wCtx wBullet).2
          (stepBulletPre trivMath [] wCtx wBullet).1 from rfl]
    rw [hpre]
    rw [if_neg (by
      show ¬((moveBullet trivMath wCtx.enemies wBullet).lifeTime ≤ 0)
      rw [hmblife]
      decide)]
    exact stepBulletHits_wCtx trivMath [] (moveBullet trivMath wCtx.enemies wBullet)
  have hpos : 0 < (stepBullet trivMath [] [] wCtx wBullet).1.lifeTime := by
    rw [hstep]
    show 0 < (moveBullet trivMath wCtx.enemies wBullet).lifeTime
    rw [hmblife]
    decide
  exact ⟨hpos, (stepBullet_lifetime trivMath [] [] wCtx wBullet).2.1 hpos⟩

/-! ## C2: crystal progression and the single boss spawn -/

/-- A regular (non-boss) spawn appends exactly one enemy-typed entry and
touches neither the collected count nor the boss latch. -/
lemma spawnEnemy_false_shape (cfg : Config) (s : GState) :
    ∃ e, (spawnEnemy cfg false s).enemies = s.enemies ++ [e] ∧
      e.etype = EntityType.enemy ∧
      (spawnEnemy cfg false s).crystalsCollected = s.crystalsCollected ∧
      (spawnEnemy cfg false s).bossSpawned = s.bossSpawned :=
  ⟨_, rfl, rfl, rfl, rfl⟩

/-- The boss spawn appends exactly one boss-typed entry with hp
`1500 * levelNumber`, double scale, and armor and horns forced. -/
lemma spawnEnemy_true_shape (cfg : Config) (s : GState) :
    ∃ e, (spawnEnemy cfg true s).enemies = s.enemies ++ [e] ∧
      e.etype = EntityType.boss ∧ e.enemyType = EnemyKind.boss ∧
      e.hp = 1500 * levelNum cfg ∧ e.visuals.scale = 2 ∧
      e.visuals.hasArmor = true ∧ e.visuals.hasHorns = true ∧
      (spawnEnemy cfg true s).crystalsCollected = s.crystalsCollected := by
  refine ⟨_, rfl, rfl, rfl, rfl, ?_, rfl, rfl, rfl⟩
  show (2.0 : ℝ) = 2
  norm_num

/-- A crystal spawn touches neither the enemy registry, the collected
count, nor the boss latch. -/
lemma spawnCrystal_frame (cfg : Config) (s : GState) :
    (spawnCrystal cfg s).enemies = s.enemies ∧
    (spawnCrystal cfg s).crystalsCollected = s.crystalsCollected ∧
    (spawnCrystal cfg s).bossSpawned = s.bossSpawned :=
  ⟨rfl, rfl, rfl⟩

/-- A crate spawn touches neither the enemy registry, the collected count,
nor the boss latch. -/
lemma spawnCrate_frame (cfg : Config) (s : GState) :
    (spawnCrate cfg s).enemies = s.enemies ∧
    (spawnCrate cfg s).crystalsCollected = s.crystalsCollected ∧
    (spawnCrate cfg s).bossSpawned = s.bossSpawned :=
  ⟨rfl, rfl, rfl⟩

/-- The regular-spawn chain appends zero or one enemy-typed entries and
preserves the collected count and the boss latch. -/
lemma regularSpawns_shape (cfg : Config) (s : GState) :
    ∃ pre, (regularSpawns cfg s).enemies = s.enemies ++ pre ∧
      (∀ e ∈ pre, e.etype = EntityType.enemy) ∧
      (regularSpawns cfg s).crystalsCollected = s.crystalsCollected ∧
      (regularSpawns cfg s).bossSpawned = s.bossSpawned := by
  set t1 := if s.waveTimer % 120 = 0 ∧ s.enemies.length < 30
      then spawnEnemy cfg false s else s with ht1
  set t2 := if t1.crystals.length < 15 ∧ t1.waveTimer % 60 = 0
      then spawnCrystal cfg t1 else t1 with ht2
  set t3 := if t2.crates.length < 5 ∧ t2.waveTimer % 300 = 0
      then spawnCrate cfg t2 else t2 with ht3
  have hreg : regularSpawns cfg s = t3 := rfl
  have h1 : ∃ p1, t1.enemies = s.enemies ++ p1 ∧
      (∀ e ∈ p1, e.etype = EntityType.enemy) ∧
      t1.crystalsCollected = s.crystalsCollected ∧
      t1.bossSpawned = s.bossSpawned := by
    rw [ht1]
    split
    · obtain ⟨e, he, het, hc, hb⟩ := spawnEnemy_false_shape cfg s
      refine ⟨[e], he, ?_, hc, hb⟩
      intro x hx
      rw [List.mem_singleton] at hx
      rw [hx]
      exact het
    · exact ⟨[], (List.append_nil _).symm, by intro x hx; simp at hx, rfl, rfl⟩
  have h2 : t2.enemies = t1.enemies ∧ t2.crystalsCollected = t1.crystalsCollected ∧
      t2.bossSpawned = t1.bossSpawned := by
    rw [ht2]
    split
    · exact spawnCrystal_frame cfg t1
    · exact ⟨rfl, rfl, rfl⟩
  have h3 : t3.enemies = t2.enemies ∧ t3.crystalsCollected = t2.crystalsCollected ∧
      t3.bossSpawned = t2.bossSpawned := by
    rw [ht3]
    split
    · exact spawnCrate_frame cfg t2
    · exact ⟨rfl, rfl, rfl⟩
  obtain ⟨p1, he1, hp1, hc1, hb1⟩ := h1
  obtain ⟨he2, hc2, hb2⟩ := h2
  obtain ⟨he3, hc3, hb3⟩ := h3
  exact ⟨p1, by rw [hreg, he3, he2, he1], hp1,
    by rw [hreg, hc3, hc2, hc1], by rw [hreg, hb3, hb2, hb1]⟩

/-- Once the boss latch is set, a tick's spawn phase only advances the
wave timer: regular enemy, crystal and crate spawning has stopped. -/
lemma spawnPhase_latched (cfg : Config) (s : GState) (hb : s.bossSpawned = true) :
    spawnPhase cfg s = { s with waveTimer := s.waveTimer + 1 } := by
  simp only [spawnPhase]
  rw [hb]
  simp

/-- Shape of the spawn phase while the boss latch is still clear. -/
lemma spawnPhase_unlatched (cfg : Config) (s : GState) (hb : s.bossSpawned = false) :
    spawnPhase cfg s =
      (if ((regularSpawns cfg { s with waveTimer := s.waveTimer + 1 }).crystalsCollected : ℝ)
          ≥ CRYSTALS_TO_BOSS cfg then
        { (spawnEnemy cfg true (regularSpawns cfg { s with waveTimer := s.waveTimer + 1 }))
            with bossSpawned := true }
      else regularSpawns cfg { s with waveTimer := s.waveTimer + 1 }) := by
  simp only [spawnPhase]
  rw [hb]
  simp

/-- When the latch is clear and the collected count has reached the
threshold, the spawn phase sets the latch and appends — after at most one
regular enemy — exactly one boss entry with the claimed stats. -/
lemma spawnPhase_boss (cfg : Config) (s : GState) (hb : s.bossSpawned = false)
    (hth : (s.crystalsCollected : ℝ) ≥ CRYSTALS_TO_BOSS cfg) :
    (spawnPhase cfg s).bossSpawned = true ∧
    ∃ pre bossE, (spawnPhase cfg s).enemies = s.enemies ++ pre ++ [bossE] ∧
      (∀ e ∈ pre, e.etype = EntityType.enemy) ∧
      bossE.etype = EntityType.boss ∧ bossE.enemyType = EnemyKind.boss ∧
      bossE.hp = 1500 * levelNum cfg ∧ bossE.visuals.scale = 2 ∧
      bossE.visuals.hasArmor = true ∧ bossE.visuals.hasHorns = true := by
  obtain ⟨pre, hen, hpre, hcnt, hflag⟩ :=
    regularSpawns_shape cfg { s with waveTimer := s.waveTimer + 1 }
  have hreg : ((regularSpawns cfg
      { s with waveTimer := s.waveTimer + 1 }).crystalsCollected : ℝ)
      ≥ CRYSTALS_TO_BOSS cfg := by
    rw [hcnt]
    exact hth
  rw [spawnPhase_unlatched cfg s hb, if_pos hreg]
  obtain ⟨bossE, hben, h1, h2, h3, h4, h5, h6, _⟩ :=
    spawnEnemy_true_shape cfg (regularSpawns cfg { s with waveTimer := s.waveTimer + 1 })
  refine ⟨rfl, pre, bossE, ?_, hpre, h1, h2, h3, h4, h5, h6⟩
  show (spawnEnemy cfg true
      (regularSpawns cfg { s with waveTimer := s.waveTimer + 1 })).enemies
    = s.enemies ++ pre ++ [bossE]
  rw [hben, hen]

/-- While the latch is clear and the count is below the threshold, the
spawn phase leaves the latch clear, spawns no boss, and preserves the
collected count. -/
lemma spawnPhase_noBoss (cfg : Config) (s : GState) (hb : s.bossSpawned = false)
    (hth : (s.crystalsCollected : ℝ) < CRYSTALS_TO_BOSS cfg) :
    (spawnPhase cfg s).bossSpawned = false ∧
    bossCount (spawnPhase cfg s) = bossCount s ∧
    (spawnPhase cfg s).crystalsCollected = s.crystalsCollected := by
  obtain ⟨pre, hen, hpre, hcnt, hflag⟩ :=
    regularSpawns_shape cfg { s with waveTimer := s.waveTimer + 1 }
  have hreg : ¬ (((regularSpawns cfg
      { s with waveTimer := s.waveTimer + 1 }).crystalsCollected : ℝ)
      ≥ CRYSTALS_TO_BOSS cfg) := by
    rw [hcnt]
    exact not_le.mpr hth
  rw [spawnPhase_unlatched cfg s hb, if_neg hreg]
  have hpre0 : pre.countP (fun e => decide (e.etype = EntityType.boss)) = 0 :=
    List.countP_eq_zero.mpr (fun a ha => by simp [hpre a ha])
  refine ⟨hflag.trans hb, ?_, hcnt⟩
  show (regularSpawns cfg { s with waveTimer := s.waveTimer + 1 }).enemies.countP _
    = s.enemies.countP _
  rw [hen, List.countP_append, hpre0]
  simp

/-- The spawn phase never changes the collected-crystal count. -/
lemma spawnPhase_count (cfg : Config) (s : GState) :
    (spawnPhase cfg s).crystalsCollected = s.crystalsCollected := by
  cases hb : s.bossSpawned with
  | true => rw [spawnPhase_latched cfg s hb]
  | false =>
    obtain ⟨pre, hen, hpre, hcnt, hflag⟩ :=
      regularSpawns_shape cfg { s with waveTimer := s.waveTimer + 1 }
    rw [spawnPhase_unlatched cfg s hb]
    split
    · show (spawnEnemy cfg true
          (regularSpawns cfg { s with waveTimer := s.waveTimer + 1 })).crystalsCollected
        = s.crystalsCollected
      obtain ⟨_, _, _, _, _, _, _, _, hc⟩ :=
        spawnEnemy_true_shape cfg (regularSpawns cfg { s with waveTimer := s.waveTimer + 1 })
      rw [hc, hcnt]
    · exact hcnt

/-- The boss latch is absorbing through the spawn phase. -/
lemma spawnPhase_flag (cfg : Config) (s : GState) (hb : s.bossSpawned = true) :
    (spawnPhase cfg s).bossSpawned = true := by
  rw [spawnPhase_latched cfg s hb]
  exact hb

/-- The player phase touches neither the enemy registry, the collected
count, nor the boss latch. -/
lemma playerPhase_frame (M : MathImpl) (keys : String → Bool) (s : GState) :
    (playerPhase M keys s).enemies = s.enemies ∧
    (playerPhase M keys s).crystalsCollected = s.crystalsCollected ∧
    (playerPhase M keys s).bossSpawned = s.bossSpawned :=
  ⟨rfl, rfl, rfl⟩

/-- The interaction phase touches neither the enemy registry, the
collected count, nor the boss latch. -/
lemma interactPhase_frame (M : MathImpl) (s : GState) :
    (interactPhase M s).enemies = s.enemies ∧
    (interactPhase M s).crystalsCollected = s.crystalsCollected ∧
    (interactPhase M s).bossSpawned = s.bossSpawned :=
  ⟨rfl, rfl, rfl⟩

/-- The enemy phase touches neither the collected count nor the boss
latch. -/
lemma enemyPhase_frame (M : MathImpl) (ids : List String) (s : GState) :
    (enemyPhase M ids s).crystalsCollected = s.crystalsCollected ∧
    (enemyPhase M ids s).bossSpawned = s.bossSpawned :=
  ⟨rfl, rfl⟩

/-- The crystal phase touches neither the enemy registry nor the boss
latch. -/
lemma crystalPhase_frame (M : MathImpl) (ids : List String) (s : GState) :
    (crystalPhase M ids s).enemies = s.enemies ∧
    (crystalPhase M ids s).bossSpawned = s.bossSpawned :=
  ⟨rfl, rfl⟩

/-- The bullet phase touches neither the collected count nor the boss
latch. -/
lemma bulletPhase_frame (cfg : Config) (ids : List String) (s : GState) :
    (bulletPhase cfg ids s).crystalsCollected = s.crystalsCollected ∧
    (bulletPhase cfg ids s).bossSpawned = s.bossSpawned :=
  ⟨rfl, rfl⟩

/-- The end-of-tick purge, particle and camera passes touch neither the
collected count nor the boss latch; purge only filters the enemy registry,
and the particle and camera passes do not touch it at all. -/
lemma endPhases_frame (s : GState) :
    (cameraPhase (particlePhase (purgePhase s))).crystalsCollected = s.crystalsCollected ∧
    (cameraPhase (particlePhase (purgePhase s))).bossSpawned = s.bossSpawned ∧
    (cameraPhase (particlePhase (purgePhase s))).enemies =
      s.enemies.filter (fun e => !e.dead) :=
  ⟨rfl, rfl, rfl⟩

/-- The crystal collection loop never decreases the collected count. -/
lemma crystalLoop_count_le (M : MathImpl) (ids : List String) :
    ∀ (cs : List Crystal) (ps : List PlayerS) (n : ℕ) (parts : List Particle) (i : ℕ),
      n ≤ (crystalLoop M ids cs ps n parts i).2.2.1 := by
  intro cs
  induction cs with
  | nil => intro ps n parts i; exact le_refl n
  | cons c rest ih =>
    intro ps n parts i
    simp only [crystalLoop]
    cases h : firstCollectorIdx ids ps c with
    | some j =>
      exact le_trans (Nat.le_succ n) (ih _ (n + 1) _ _)
    | none =>
      exact ih ps n parts i

/-- The crystal phase never decreases the collected count. -/
lemma crystalPhase_count_le (M : MathImpl) (ids : List String) (s : GState) :
    s.crystalsCollected ≤ (crystalPhase M ids s).crystalsCollected :=
  crystalLoop_count_le M ids s.crystals s.players s.crystalsCollected [] s.randIdx

/-- Filtering a list cannot increase a `countP`. -/
lemma countP_filter_le {α : Type} (p q : α → Bool) (l : List α) :
    (l.filter q).countP p ≤ l.countP p := by
  induction l with
  | nil => exact le_refl 0
  | cons a t ih =>
    rw [List.filter_cons]
    split
    · rw [List.countP_cons, List.countP_cons]
      exact Nat.add_le_add_right ih _
    · rw [List.countP_cons]
      exact le_trans ih (Nat.le_add_right _ _)

/-- Replacing an element by one with the same predicate value preserves a
`countP`. -/
lemma countP_set_eq {α : Type} (p : α → Bool) :
    ∀ (l : List α) (idx : ℕ) (a a' : α), l.get? idx = some a →
      p a' = p a → (l.set idx a').countP p = l.countP p := by
  intro l
  induction l with
  | nil => intro idx a a' h _; simp at h
  | cons x t ih =>
    intro idx a a' h hp
    cases idx with
    | zero =>
      injection h with h
      subst h
      simp [List.countP_cons, hp]
    | succ k =>
      simp only [List.get?] at h
      simp [List.countP_cons, ih k a a' h hp]

/-- The tail physics of an enemy tick preserves the entity type. -/
lemma enemyPhysics_etype (M : MathImpl) (e : EnemyS) :
    (enemyPhysics M e).etype = e.etype := rfl

/-- The cooldown decrement plus tail physics preserves the entity type. -/
lemma stepEnemy_tail_etype (M : MathImpl) (e : EnemyS) :
    (enemyPhysics M (if e.attackCooldown > 0
        then { e with attackCooldown := e.attackCooldown - 1 } else e)).etype
      = e.etype := by
  rw [enemyPhysics_etype]
  split
  · rfl
  · rfl

/-- A full enemy tick preserves the entity type. -/
lemma stepEnemy_etype (M : MathImpl) (act : List PlayerS) (es : List EnemyS)
    (idx : ℕ) (e : EnemyS) (i : ℕ) :
    (stepEnemy M act es idx e i).1.etype = e.etype := by
  cases h : nearestPlayer act e.pos with
  | none =>
    simp only [stepEnemy, h]
    exact enemyPhysics_etype M e
  | some t =>
    simp only [stepEnemy, h]
    have key : ∀ (e' : EnemyS), e'.etype = e.etype →
        (enemyPhysics M (if e'.attackCooldown > 0
          then { e' with attackCooldown := e'.attackCooldown - 1 } else e')).etype
          = e.etype := by
      intro e' he
      rw [stepEnemy_tail_etype]
      exact he
    apply key
    split
    · rfl
    · split
      · rfl
      · rfl

/-- The in-place enemy loop preserves the number of boss-typed entries. -/
lemma enemyLoop_bossCount (M : MathImpl) (act : List PlayerS) :
    ∀ (fuel idx : ℕ) (es : List EnemyS) (bs : List Bullet) (i : ℕ),
      ((enemyLoop M act idx fuel es bs i).1).countP
          (fun e => decide (e.etype = EntityType.boss)) =
        es.countP (fun e => decide (e.etype = EntityType.boss)) := by
  intro fuel
  induction fuel with
  | zero => intro idx es bs i; rfl
  | succ n ih =>
    intro idx es bs i
    simp only [enemyLoop]
    cases h : es.get? idx with
    | none => rfl
    | some e =>
      rw [ih]
      exact countP_set_eq _ es idx e _ h (by simp [stepEnemy_etype])

/-- The enemy phase preserves the number of boss-typed entries. -/
lemma enemyPhase_bossCount (M : MathImpl) (ids : List String) (s : GState) :
    bossCount (enemyPhase M ids s) = bossCount s :=
  enemyLoop_bossCount M (activeOf ids s.players) s.enemies.length 0 s.enemies [] s.randIdx

/-- A bullet's pass over the enemy registry only rewrites hp/dead flags,
so it preserves the number of boss-typed entries. -/
lemma hitEnemies_bossCount (M : MathImpl) (b : Bullet) :
    ∀ (es : List EnemyS) (i : ℕ),
      (hitEnemies M b i es).enemies.countP (fun e => decide (e.etype = EntityType.boss)) =
        es.countP (fun e => decide (e.etype = EntityType.boss)) := by
  intro es
  induction es with
  | nil => intro i; rfl
  | cons t rest ih =>
    intro i
    simp only [hitEnemies]
    split
    · simp only [List.countP_cons, ih]
    · split
      · split
        · simp [List.countP_cons]
        · simp [List.countP_cons]
      · simp only [List.countP_cons, ih]

/-- The hit stage of a bullet preserves the number of boss-typed entries
in the context. -/
lemma stepBulletHits_bossCount (M : MathImpl) (ids : List String)
    (ctx : BulletCtx) (b : Bullet) :
    ((stepBulletHits M ids ctx b).2).enemies.countP
        (fun e => decide (e.etype = EntityType.boss)) =
      ctx.enemies.countP (fun e => decide (e.etype = EntityType.boss)) := by
  simp only [stepBulletHits]
  by_cases hown : b.ownerId.startsWith ("p") = true
  · rw [if_pos hown]
    repeat' split
    all_goals first
      | rfl
      | exact hitEnemies_bossCount M _ ctx.enemies _
  · rw [if_neg hown]

/-- The pre stage of a bullet does not touch the context's enemies. -/
lemma stepBulletPre_enemies (M : MathImpl) (env : List EnvObj) (ctx : BulletCtx)
    (b : Bullet) :
    ((stepBulletPre M env ctx b).2).enemies = ctx.enemies :=
  (stepBulletPre_frame M env ctx b).2.1

/-- A full bullet tick preserves the number of boss-typed entries in the
context. -/
lemma stepBullet_bossCount (M : MathImpl) (ids : List String) (env : List EnvObj)
    (ctx : BulletCtx) (b : Bullet) :
    ((stepBullet M ids env ctx b).2).enemies.countP
        (fun e => decide (e.etype = EntityType.boss)) =
      ctx.enemies.countP (fun e => decide (e.etype = EntityType.boss)) := by
  simp only [stepBullet]
  split
  · rw [stepBulletPre_enemies]
  · rw [stepBulletHits_bossCount, stepBulletPre_enemies]

/-- The bullet fold preserves the number of boss-typed entries in the
context. -/
lemma bulletFold_bossCount (M : MathImpl) (ids : List String) (env : List EnvObj) :
    ∀ (bs : List Bullet) (p : List Bullet × BulletCtx),
      ((bs.foldl (fun (acc : List Bullet × BulletCtx) b =>
          let (b', ctx) := stepBullet M ids env acc.2 b
          (acc.1 ++ [b'], ctx)) p).2).enemies.countP
          (fun e => decide (e.etype = EntityType.boss)) =
        p.2.enemies.countP (fun e => decide (e.etype = EntityType.boss)) := by
  intro bs
  induction bs with
  | nil => intro p; rfl
  | cons b rest ih =>
    intro p
    rw [List.foldl_cons, ih]
    exact stepBullet_bossCount M ids env p.2 b

/-- The bullet phase preserves the number of boss-typed entries. -/
lemma bulletPhase_bossCount (cfg : Config) (ids : List String) (s : GState) :
    bossCount (bulletPhase cfg ids s) = bossCount s :=
  bulletFold_bossCount cfg.math ids
    (getEnvironmentInRect cfg.math s.camera.x s.camera.y
      (cfg.innerW * 1.5) (cfg.innerH * 1.5))
    s.bullets
    ([], ⟨s.enemies, s.players, s.crates, s.pickups, s.particles, s.randIdx⟩)

/-- Shape of a tick that passes both terminal checks: the phase pipeline
runs in source order. -/
lemma update_pipeline (cfg : Config) (keys : String → Bool) (s : GState)
    (h1 : ¬ ((s.players.filter (fun p => !p.dead)).length = 0))
    (h2 : ¬ ((s.bossSpawned &&
      (s.enemies.find? (fun e => decide (e.etype = EntityType.boss))).isNone) = true)) :
    update cfg keys s =
      (cameraPhase (particlePhase (purgePhase (bulletPhase cfg
        ((s.players.filter (fun p => !p.dead)).map (fun p => p.id))
        (crystalPhase cfg.math ((s.players.filter (fun p => !p.dead)).map (fun p => p.id))
          (enemyPhase cfg.math ((s.players.filter (fun p => !p.dead)).map (fun p => p.id))
            (interactPhase cfg.math
              (playerPhase cfg.math keys (spawnPhase cfg s)))))))), []) := by
  simp only [update]
  rw [if_neg h1, if_neg h2]

/-- Across one tick, the collected count never decreases, the boss latch
is absorbing, and once the latch is set the number of boss-typed entries
never grows. -/
lemma update_progress (cfg : Config) (keys : String → Bool) (s : GState) :
    s.crystalsCollected ≤ (update cfg keys s).1.crystalsCollected ∧
    (s.bossSpawned = true → (update cfg keys s).1.bossSpawned = true) ∧
    (s.bossSpawned = true → bossCount (update cfg keys s).1 ≤ bossCount s) := by
  by_cases h1 : (s.players.filter (fun p => !p.dead)).length = 0
  · have heq : update cfg keys s = (s, [.gameOver]) := by
      simp only [update]
      rw [if_pos h1]
    rw [heq]
    exact ⟨le_refl _, fun h => h, fun _ => le_refl _⟩
  · by_cases h2 : (s.bossSpawned &&
        (s.enemies.find? (fun e => decide (e.etype = EntityType.boss))).isNone) = true
    · have heq : update cfg keys s = (s, [.levelComplete]) := by
        simp only [update]
        rw [if_neg h1, if_pos h2]
      rw [heq]
      exact ⟨le_refl _, fun h => h, fun _ => le_refl _⟩
    · rw [update_pipeline cfg keys s h1 h2]
      set ids := (s.players.filter (fun p => !p.dead)).map (fun p => p.id) with hids
      set s0 := spawnPhase cfg s with hs0
      set s1 := playerPhase cfg.math keys s0 with hs1
      set s2 := interactPhase cfg.math s1 with hs2
      set s3 := enemyPhase cfg.math ids s2 with hs3
      set s4 := crystalPhase cfg.math ids s3 with hs4
      set s5 := bulletPhase cfg ids s4 with hs5
      refine ⟨?_, ?_, ?_⟩
      · calc s.crystalsCollected
            = s0.crystalsCollected := (spawnPhase_count cfg s).symm
          _ = s1.crystalsCollected := ((playerPhase_frame cfg.math keys s0).2.1).symm
          _ = s2.crystalsCollected := ((interactPhase_frame cfg.math s1).2.1).symm
          _ = s3.crystalsCollected := ((enemyPhase_frame cfg.math ids s2).1).symm
          _ ≤ s4.crystalsCollected := crystalPhase_count_le cfg.math ids s3
          _ = s5.crystalsCollected := ((bulletPhase_frame cfg ids s4).1).symm
          _ = _ := ((endPhases_frame s5).1).symm
      · intro hb
        show (cameraPhase (particlePhase (purgePhase s5))).bossSpawned = true
        rw [(endPhases_frame s5).2.1, (bulletPhase_frame cfg ids s4).2,
          (crystalPhase_frame cfg.math ids s3).2, (enemyPhase_frame cfg.math ids s2).2,
          (interactPhase_frame cfg.math s1).2.2, (playerPhase_frame cfg.math keys s0).2.2]
        exact spawnPhase_flag cfg s hb
      · intro hb
        show bossCount (cameraPhase (particlePhase (purgePhase s5))) ≤ bossCount s
        have h5 : bossCount (cameraPhase (particlePhase (purgePhase s5))) ≤ bossCount s5 := by
          show (cameraPhase (particlePhase (purgePhase s5))).enemies.countP _ ≤ _
          rw [(endPhases_frame s5).2.2]
          exact countP_filter_le _ _ s5.enemies
        have h4 : bossCount s4 = bossCount s3 := by
          show s4.enemies.countP _ = s3.enemies.countP _
          rw [(crystalPhase_frame cfg.math ids s3).1]
        have h2' : bossCount s2 = bossCount s1 := by
          show s2.enemies.countP _ = s1.enemies.countP _
          rw [(interactPhase_frame cfg.math s1).1]
        have h1' : bossCount s1 = bossCount s0 := by
          show s1.enemies.countP _ = s0.enemies.countP _
          rw [(playerPhase_frame cfg.math keys s0).1]
        have h0 : bossCount s0 = bossCount s := by
          rw [hs0, spawnPhase_latched cfg s hb]
          rfl
        calc bossCount (cameraPhase (particlePhase (purgePhase s5)))
            ≤ bossCount s5 := h5
          _ = bossCount s4 := bulletPhase_bossCount cfg ids s4
          _ = bossCount s3 := h4
          _ = bossCount s2 := enemyPhase_bossCount cfg.math ids s2
          _ = bossCount s1 := h2'
          _ = bossCount s0 := h1'
          _ = bossCount s := h0

/-- C2: across a session the collected-crystal count is monotonically
non-decreasing through every tick; the boss latch is absorbing, and while
it is set regular enemy/crystal/crate spawning has stopped (the spawn
phase only advances the wave timer) and the number of boss-typed entries
never grows; while the latch is clear and the count is below
`10 + levelNumber * 2` no boss appears and the latch stays clear; and on
the first tick at which the count has reached the threshold the spawn
phase sets the latch and appends exactly one boss — hp
`1500 * levelNumber`, visual scale 2.0, armor and horns forced — after at
most one regular enemy. -/
theorem crystalProgress_spec (cfg : Config) (keys : String → Bool) (s : GState) :
    s.crystalsCollected ≤ (update cfg keys s).1.crystalsCollected ∧
    (s.bossSpawned = true → (update cfg keys s).1.bossSpawned = true) ∧
    (s.bossSpawned = true → spawnPhase cfg s = { s with waveTimer := s.waveTimer + 1 }) ∧
    (s.bossSpawned = true → bossCount (update cfg keys s).1 ≤ bossCount s) ∧
    (s.bossSpawned = false → (s.crystalsCollected : ℝ) < CRYSTALS_TO_BOSS cfg →
      (spawnPhase cfg s).bossSpawned = false ∧
      bossCount (spawnPhase cfg s) = bossCount s) ∧
    (s.bossSpawned = false → (s.crystalsCollected : ℝ) ≥ CRYSTALS_TO_BOSS cfg →
      (spawnPhase cfg s).bossSpawned = true ∧
      ∃ pre bossE, (spawnPhase cfg s).enemies = s.enemies ++ pre ++ [bossE] ∧
        (∀ e ∈ pre, e.etype = EntityType.enemy) ∧
        bossE.etype = EntityType.boss ∧ bossE.enemyType = EnemyKind.boss ∧
        bossE.hp = 1500 * levelNum cfg ∧ bossE.visuals.scale = 2 ∧
        bossE.visuals.hasArmor = true ∧ bossE.visuals.hasHorns = true) := by
  obtain ⟨hcnt, hflag, hbc⟩ := update_progress cfg keys s
  refine ⟨hcnt, hflag, fun hb => spawnPhase_latched cfg s hb, hbc, ?_, ?_⟩
  · intro hb hth
    obtain ⟨ha, hb', _⟩ := spawnPhase_noBoss cfg s hb hth
    exact ⟨ha, hb'⟩
  · intro hb hth
    exact spawnPhase_boss cfg s hb hth

/-- C2 witness: a fresh level-1 session that has collected 12 crystals is
exactly at the threshold `10 + 1*2`; the next spawn phase sets the latch
and spawns the boss. -/
theorem crystalProgress_spec_witness :
    (bossReadyState.bossSpawned = false ∧
      (bossReadyState.crystalsCollected : ℝ) ≥ CRYSTALS_TO_BOSS wCfg) ∧
    ((spawnPhase wCfg bossReadyState).bossSpawned = true ∧
      ∃ pre bossE, (spawnPhase wCfg bossReadyState).enemies =
          bossReadyState.enemies ++ pre ++ [bossE] ∧
        (∀ e ∈ pre, e.etype = EntityType.enemy) ∧
        bossE.etype = EntityType.boss ∧ bossE.enemyType = EnemyKind.boss ∧
        bossE.hp = 1500 * levelNum wCfg ∧ bossE.visuals.scale = 2 ∧
        bossE.visuals.hasArmor = true ∧ bossE.visuals.hasHorns = true) :=
  ⟨⟨rfl, by norm_num [bossReadyState, CRYSTALS_TO_BOSS, levelNum, wCfg]⟩,
    (crystalProgress_spec wCfg (fun _ => false) bossReadyState).2.2.2.2.2 rfl
      (by norm_num [bossReadyState, CRYSTALS_TO_BOSS, levelNum, wCfg])⟩

end CrystalHunters
